import Mathlib

/-!
# Forward/backward layer data-flow protocol of the neural-network layers

A shallow embedding of the argument/result framework used by the
neural-network layers: tensors are shared handles with an immutable shape,
the auxiliary map (`LayerData`) lives in an object store and is referred to
by handle, the error collector is an ordered list, and every operation that
can dereference a null handle or index a collection out of range returns in
`Except Fault`.
-/

namespace Daal

/-! ## Data model -/

/-- Undefined behaviour of the source program: dereferencing a null shared
pointer, or indexing a `Collection` outside its bounds. -/
inductive Fault where
  | nullDereference
  | indexOutOfRange
  deriving DecidableEq

/-- Error identifiers. `ErrorNullInputNumericTable` and
`ErrorIncorrectParameter` are the ones the layer headers add themselves; the
three tensor identifiers are the ones reported by `checkTensor`. -/
inductive ErrorID where
  | ErrorNullInputNumericTable
  | ErrorIncorrectParameter
  | ErrorNullTensor
  | ErrorIncorrectNumberOfDimensionsInTensor
  | ErrorIncorrectSizeOfDimensionInTensor
  deriving DecidableEq

/-- An error: a kind and an optional context string (the argument name). -/
structure Error where
  id : ErrorID
  argumentName : Option String
  deriving DecidableEq

/-- The error collector `_errors`: an ordered sequence of errors. -/
abbrev ErrorCollection := List Error

/-- The call `_errors->add(e)`: appends at the end. -/
def ErrorCollection.add (errors : ErrorCollection) (e : Error) : ErrorCollection :=
  errors ++ [e]

/-- The call `_errors->size()`. -/
def ErrorCollection.size (errors : ErrorCollection) : Nat :=
  errors.length

/-- A tensor as seen through a `SharedPtr<Tensor>`: the identity of the
object (`handle`) and its shape. A null pointer is `none : Option Tensor`. -/
structure Tensor where
  handle : Nat
  dims : List Nat
  deriving DecidableEq

/-- The call `tensor->getDimensions()` on a shared pointer: a fault on null. -/
def getDimensions (tensor : Option Tensor) : Except Fault (List Nat) :=
  match tensor with
  | none => .error .nullDereference
  | some t => .ok t.dims

/-- Read access `c[i]` to a `Collection<size_t>`: not bounds-checked in the
source, so an index past the end is a fault. -/
def Collection.index (c : List Nat) (i : Nat) : Except Fault Nat :=
  match c.get? i with
  | some x => .ok x
  | none => .error .indexOutOfRange

/-- Write access `c[i] = v` to a `Collection<size_t>`. -/
def Collection.assign (c : List Nat) (i : Nat) (v : Nat) : Except Fault (List Nat) :=
  if i < c.length then .ok (c.set i v) else .error .indexOutOfRange

/-- Modelled from the spec: the class `LayerData` (a key-value collection of
shared pointers, declared in layer_types.h) is not in src. It is the
auxiliary Argument map: identifiers are unique, kept in insertion order, and
an identifier with no entry reads as the null handle. -/
structure LayerData where
  entries : List (Nat × Option Tensor)
  deriving DecidableEq

/-- Lookup used by `(*layerData)[id]` when it is read. The source reads
through the same non-const `operator[]` it assigns through, which leaves an
entry holding the null handle behind for an identifier that had none; such
an entry reads like no entry, and the read is kept pure here. -/
def LayerData.lookup : List (Nat × Option Tensor) → Nat → Option Tensor
  | [], _ => none
  | (k, v) :: rest, id => if k = id then v else LayerData.lookup rest id

/-- Update used by `(*layerData)[id] = value`: the entry of an identifier
already present is replaced in place, a new identifier is appended. -/
def LayerData.update : List (Nat × Option Tensor) → Nat → Option Tensor → List (Nat × Option Tensor)
  | [], id, value => [(id, value)]
  | (k, v) :: rest, id, value =>
    if k = id then (k, value) :: rest else (k, v) :: LayerData.update rest id value

/-- Reading `(*layerData)[id]`. -/
def LayerData.get (layerData : LayerData) (id : Nat) : Option Tensor :=
  LayerData.lookup layerData.entries id

/-- Writing `(*layerData)[id] = value`. -/
def LayerData.set (layerData : LayerData) (id : Nat) (value : Option Tensor) : LayerData :=
  ⟨LayerData.update layerData.entries id value⟩

/-- The object store: `next` is the first handle not yet given to an object,
`layerData` holds the auxiliary maps by handle (they are mutable and shared,
so they are stored rather than copied). -/
structure Heap where
  next : Nat
  layerData : Nat → Option LayerData

/-- The expression `new HomogenTensor<algorithmFPType>(dims, Tensor::doAllocate)`:
a tensor of the given shape under a handle no other object has. -/
def Heap.newTensor (heap : Heap) (dims : List Nat) : Tensor × Heap :=
  (⟨heap.next, dims⟩, { heap with next := heap.next + 1 })

/-- The expression `new LayerData()`: an empty auxiliary map under a fresh handle. -/
def Heap.newLayerData (heap : Heap) : Nat × Heap :=
  (heap.next,
   { next := heap.next + 1,
     layerData := fun p => if p = heap.next then some ⟨[]⟩ else heap.layerData p })

/-- Stores a modified auxiliary map back under its handle. -/
def Heap.storeLayerData (heap : Heap) (p : Nat) (m : LayerData) : Heap :=
  { heap with layerData := fun q => if q = p then some m else heap.layerData q }

/-- Modelled from the spec: `checkTensor` (data_management/data/tensor.h) is
not in src. It reports a missing tensor (null reference) and, when expected
dimensions are given, a shape that differs from them: first the number of
dimensions, then the extents. It returns the null error when nothing is wrong. -/
def checkTensor (tensor : Option Tensor) (argumentName : String)
    (dims : Option (List Nat)) : Option Error :=
  match tensor with
  | none => some ⟨.ErrorNullTensor, some argumentName⟩
  | some t =>
    match dims with
    | none => none
    | some d =>
      if t.dims.length ≠ d.length then
        some ⟨.ErrorIncorrectNumberOfDimensionsInTensor, some argumentName⟩
      else if t.dims ≠ d then
        some ⟨.ErrorIncorrectSizeOfDimensionInTensor, some argumentName⟩
      else none

/-- An error built from an identifier alone, as in `_errors->add(services::ErrorID)`. -/
def Error.ofID (id : ErrorID) : Error := ⟨id, none⟩

/-- What an allocation leaves behind: the object store, the error collector
and the Result object. -/
structure Outcome (ρ : Type) where
  heap : Heap
  errors : ErrorCollection
  result : ρ

namespace layers

namespace backward

/-- Modelled from the spec: `layers::backward::Input` (layer_backward_types.h)
is not in src. Its Argument map has the entries `inputGradient` (a tensor)
and `inputFromForward` (the auxiliary map of the paired forward Result,
held by reference). -/
structure Input where
  inputGradient : Option Tensor
  inputFromForward : Option Nat
  deriving DecidableEq

/-- Modelled from the spec: `layers::backward::Result`
(layer_backward_types.h) is not in src. Its Argument map has the entries
`gradient`, `weightDerivatives` and `biasDerivatives`. -/
structure Result where
  gradient : Option Tensor
  weightDerivatives : Option Tensor
  biasDerivatives : Option Tensor
  deriving DecidableEq

end backward

namespace forward

/-- Modelled from the spec: `layers::forward::Input` (layer_forward_types.h)
is not in src. The layers read its `data` entry. -/
structure Input where
  data : Option Tensor
  deriving DecidableEq

/-- Modelled from the spec: `layers::forward::Result` (layer_forward_types.h)
is not in src. Its Argument map has the entries `value` and
`resultForBackward` (the auxiliary map, held by reference). -/
structure Result where
  value : Option Tensor
  resultForBackward : Option Nat
  deriving DecidableEq

end forward

end layers

/-! ## Fully-connected backward layer -/

namespace fullyconnected

/-- Modelled from the spec: `fullyconnected::Parameter`
(fullyconnected_layer_types.h) is not in src. The backward layer reads its
dimension index `dim` and its number of outputs `nOutputs`. -/
structure Parameter where
  dim : Nat
  nOutputs : Nat
  deriving DecidableEq

namespace backward

section

/- The enumeration `fullyconnected::LayerDataId` is declared in
fullyconnected_layer_types.h, which is not in src: its two identifiers are
taken as parameters. -/
variable (auxData auxWeights : Nat)

/-- `Input::get(LayerDataId id)`: reads the auxiliary map referenced by the
`inputFromForward` entry; dereferences it without a null test. -/
def Input.get (heap : Heap) (inp : layers.backward.Input) (id : Nat) :
    Except Fault (Option Tensor) :=
  match inp.inputFromForward with
  | none => .error .nullDereference
  | some p =>
    match heap.layerData p with
    | none => .error .nullDereference
    | some layerData => .ok (layerData.get id)

/-- `Input::set(LayerDataId id, value)`: writes into the auxiliary map
referenced by the `inputFromForward` entry. -/
def Input.set (heap : Heap) (inp : layers.backward.Input) (id : Nat)
    (value : Option Tensor) : Except Fault Heap :=
  match inp.inputFromForward with
  | none => .error .nullDereference
  | some p =>
    match heap.layerData p with
    | none => .error .nullDereference
    | some layerData => .ok (heap.storeLayerData p (layerData.set id value))

/-- `Input::check(par, method)`. The call of the base-class check
`layers::backward::Input::check` (not in src) is represented by its effect:
`errors` is the collector as the base-class check left it. -/
def Input.check (errors : ErrorCollection) (heap : Heap) (inp : layers.backward.Input)
    (param : Parameter) : Except Fault ErrorCollection :=
  if errors.size > 0 then .ok errors else
  match Input.get heap inp auxData with
  | .error f => .error f
  | .ok xTensor =>
    match checkTensor xTensor "auxData" none with
    | some error => .ok (errors.add error)
    | none =>
      match getDimensions xTensor with
      | .error f => .error f
      | .ok xDims =>
        match getDimensions inp.inputGradient with
        | .error f => .error f
        | .ok _gDims =>
          match Collection.index xDims param.dim with
          | .error f => .error f
          | .ok xd =>
            let gradDims : List Nat := [xd, param.nOutputs]
            match Collection.assign xDims param.dim param.nOutputs with
            | .error f => .error f
            | .ok wDims =>
              match checkTensor inp.inputGradient "inputGradient" (some gradDims) with
              | some error => .ok (errors.add error)
              | none =>
                match Input.get heap inp auxWeights with
                | .error f => .error f
                | .ok wTensor =>
                  match checkTensor wTensor "auxWeights" (some wDims) with
                  | some error => .ok (errors.add error)
                  | none => .ok errors

/-- `Result::allocate<algorithmFPType>(input, parameter, method)`. -/
def Result.allocate (heap : Heap) (errors : ErrorCollection) (res : layers.backward.Result)
    (inp : layers.backward.Input) (param : Parameter) :
    Except Fault (Outcome layers.backward.Result) :=
  let bDims : List Nat := [param.nOutputs]
  match Input.get heap inp auxData with
  | .error f => .error f
  | .ok valueTable =>
    match Input.get heap inp auxWeights with
    | .error f => .error f
    | .ok wTable =>
      match valueTable, wTable with
      | some valueTable, some wTable =>
        let (g, heap1) := heap.newTensor valueTable.dims
        let res1 := { res with gradient := some g }
        let (heap2, res2) :=
          if res1.weightDerivatives = none then
            let (w, h) := heap1.newTensor wTable.dims
            (h, { res1 with weightDerivatives := some w })
          else (heap1, res1)
        let (heap3, res3) :=
          if res2.biasDerivatives = none then
            let (b, h) := heap2.newTensor bDims
            (h, { res2 with biasDerivatives := some b })
          else (heap2, res2)
        .ok ⟨heap3, errors, res3⟩
      | _, _ =>
        .ok ⟨heap, errors.add (Error.ofID .ErrorNullInputNumericTable), res⟩

/-- `Result::check(input, par, method)`. As for `Input.check`, `errors` is
the collector as the base-class check `layers::backward::Result::check`
(not in src) left it. -/
def Result.check (errors : ErrorCollection) (heap : Heap) (res : layers.backward.Result)
    (algInput : layers.backward.Input) (param : Parameter) : Except Fault ErrorCollection :=
  if errors.size > 0 then .ok errors else
  match Input.get heap algInput auxData with
  | .error f => .error f
  | .ok xTensor =>
    match getDimensions xTensor with
    | .error f => .error f
    | .ok xDims =>
      match checkTensor res.gradient "gradient" (some xDims) with
      | some error => .ok (errors.add error)
      | none =>
        match Input.get heap algInput auxWeights with
        | .error f => .error f
        | .ok wTensor =>
          match getDimensions wTensor with
          | .error f => .error f
          | .ok wDims =>
            match checkTensor res.weightDerivatives "weightDerivatives" (some wDims) with
            | some error => .ok (errors.add error)
            | none =>
              let bDims : List Nat := [param.nOutputs]
              match checkTensor res.biasDerivatives "biasDerivatives" (some bDims) with
              | some error => .ok (errors.add error)
              | none => .ok errors

end

end backward

end fullyconnected

/-! ## Dropout forward layer -/

namespace dropout

namespace forward

section

/- The identifier `dropout::auxRetainMask` is declared in
dropout_layer_types.h, which is not in src: it is taken as a parameter. -/
variable (auxRetainMask : Nat)

/-- `Result::get(LayerDataId id)`: reads the auxiliary map referenced by the
`resultForBackward` entry; dereferences it without a null test. -/
def Result.get (heap : Heap) (res : layers.forward.Result) (id : Nat) :
    Except Fault (Option Tensor) :=
  match res.resultForBackward with
  | none => .error .nullDereference
  | some p =>
    match heap.layerData p with
    | none => .error .nullDereference
    | some layerData => .ok (layerData.get id)

/-- `Result::set(LayerDataId id, value)`: writes into the auxiliary map
referenced by the `resultForBackward` entry. -/
def Result.set (heap : Heap) (res : layers.forward.Result) (id : Nat)
    (value : Option Tensor) : Except Fault Heap :=
  match res.resultForBackward with
  | none => .error .nullDereference
  | some p =>
    match heap.layerData p with
    | none => .error .nullDereference
    | some layerData => .ok (heap.storeLayerData p (layerData.set id value))

/-- `Result::check(input, par, method)`. `errors` is the collector as the
base-class check `layers::forward::Result::check` (not in src) left it; the
source goes on to its own tests without looking at it. -/
def Result.check (errors : ErrorCollection) (res : layers.forward.Result)
    (inp : layers.forward.Input) : ErrorCollection :=
  match checkTensor inp.data "data" none with
  | some error => errors.add error
  | none =>
    match checkTensor res.value "value" none with
    | some error => errors.add error
    | none => errors

/-- `Result::allocateLayerData<algorithmFPType>(input, parameter, method)`. -/
def Result.allocateLayerData (heap : Heap) (res : layers.forward.Result)
    (inp : layers.forward.Input) : Except Fault Heap :=
  match getDimensions inp.data with
  | .error f => .error f
  | .ok dims =>
    let (mask, heap1) := heap.newTensor dims
    Result.set heap1 res auxRetainMask (some mask)

/-- `Result::allocate<algorithmFPType>(input, parameter, method)`. -/
def Result.allocate (heap : Heap) (res : layers.forward.Result)
    (inp : layers.forward.Input) : Except Fault (Heap × layers.forward.Result) :=
  match getDimensions inp.data with
  | .error f => .error f
  | .ok dims =>
    let (value, heap1) := heap.newTensor dims
    let res1 := { res with value := some value }
    let (p, heap2) := heap1.newLayerData
    let res2 := { res1 with resultForBackward := some p }
    match Result.allocateLayerData auxRetainMask heap2 res2 inp with
    | .error f => .error f
    | .ok heap3 => .ok (heap3, res2)

/-- `Result::getValueSize(inputSize, par, method)`. -/
def Result.getValueSize (inputSize : List Nat) : List Nat :=
  inputSize

end

end forward

end dropout

/-! ## Softmax forward layer -/

namespace softmax

/-- Modelled from the spec: `softmax::Parameter` (softmax_layer_types.h) is
not in src. The forward layer reads its dimension index `dimension`. -/
structure Parameter where
  dimension : Nat
  deriving DecidableEq

namespace forward

section

/- The identifier `softmax::auxValue` is declared in softmax_layer_types.h,
which is not in src: it is taken as a parameter. -/
variable (auxValue : Nat)

/-- `Input::check(par, method)`. `errors` is the collector as the base-class
check `layers::forward::Input::check` (not in src) left it. -/
def Input.check (errors : ErrorCollection) (inp : layers.forward.Input)
    (parameter : Parameter) : Except Fault ErrorCollection :=
  match getDimensions inp.data with
  | .error f => .error f
  | .ok dims =>
    if parameter.dimension ≥ dims.length then
      .ok (errors.add (Error.ofID .ErrorIncorrectParameter))
    else .ok errors

/-- `Result::get(LayerDataId id)`: reads the auxiliary map referenced by the
`resultForBackward` entry; dereferences it without a null test. -/
def Result.get (heap : Heap) (res : layers.forward.Result) (id : Nat) :
    Except Fault (Option Tensor) :=
  match res.resultForBackward with
  | none => .error .nullDereference
  | some p =>
    match heap.layerData p with
    | none => .error .nullDereference
    | some layerData => .ok (layerData.get id)

/-- `Result::set(LayerDataId id, value)`: writes into the auxiliary map
referenced by the `resultForBackward` entry. -/
def Result.set (heap : Heap) (res : layers.forward.Result) (id : Nat)
    (value : Option Tensor) : Except Fault Heap :=
  match res.resultForBackward with
  | none => .error .nullDereference
  | some p =>
    match heap.layerData p with
    | none => .error .nullDereference
    | some layerData => .ok (heap.storeLayerData p (layerData.set id value))

/-- `Result::check(input, par, method)`. `errors` is the collector as the
base-class check `layers::forward::Result::check` (not in src) left it; the
source goes on to its own tests without looking at it. -/
def Result.check (errors : ErrorCollection) (res : layers.forward.Result)
    (inp : layers.forward.Input) : ErrorCollection :=
  match checkTensor inp.data "data" none with
  | some error => errors.add error
  | none =>
    match checkTensor res.value "value" none with
    | some error => errors.add error
    | none => errors

/-- `Result::getValueSize(inputSize, par, method)`. -/
def Result.getValueSize (inputSize : List Nat) : List Nat :=
  inputSize

/-- `Result::allocateLayerData<algorithmFPType>(input, parameter, method)`:
`set(auxValue, get(layers::forward::value))`. -/
def Result.allocateLayerData (heap : Heap) (res : layers.forward.Result) : Except Fault Heap :=
  Result.set heap res auxValue res.value

/-- `Result::allocate<algorithmFPType>(input, parameter, method)`. -/
def Result.allocate (heap : Heap) (res : layers.forward.Result)
    (inp : layers.forward.Input) : Except Fault (Heap × layers.forward.Result) :=
  match getDimensions inp.data with
  | .error f => .error f
  | .ok dims =>
    let (value, heap1) := heap.newTensor dims
    let res1 := { res with value := some value }
    let (p, heap2) := heap1.newLayerData
    let res2 := { res1 with resultForBackward := some p }
    match Result.allocateLayerData auxValue heap2 res2 with
    | .error f => .error f
    | .ok heap3 => .ok (heap3, res2)

end

end forward

end softmax

/-! ## Concrete objects used by the scenario of the specification -/

/-- An object store holding, under handle 0, an auxiliary map with `auxData`
(identifier 0) of shape `[8, 16]` and `auxWeights` (identifier 1) of the
given shape. -/
def scenarioHeap (wDims : List Nat) : Heap :=
  { next := 10,
    layerData := fun p =>
      if p = 0 then some ⟨[(0, some ⟨1, [8, 16]⟩), (1, some ⟨2, wDims⟩)]⟩ else none }

/-- A backward Input with `inputGradient` of shape `[8, 4]` bound to the
auxiliary map under handle 0. -/
def scenarioInput : layers.backward.Input :=
  { inputGradient := some ⟨3, [8, 4]⟩, inputFromForward := some 0 }

/-- A Result that holds no entries. -/
def emptyResult : layers.backward.Result :=
  { gradient := none, weightDerivatives := none, biasDerivatives := none }

/-! ## QR decomposition in the batch processing mode -/

namespace qr

/-- Modelled from the spec: the enumeration `qr::InputId` (qr_types.h) is not
in src. The Batch reads and writes the entry `data`. -/
inductive InputId where
  | data
  deriving DecidableEq

/-- Modelled from the spec: `qr::Input` (qr_types.h) is not in src. Its
Argument map has the entry `data`, a shared pointer to a numeric table,
represented by the handle of the table (`none` is the null pointer). -/
structure Input where
  data : Option Nat
  deriving DecidableEq

/-- `Input::get(id)`. -/
def Input.get (input : Input) (_id : InputId) : Option Nat :=
  input.data

/-- `Input::set(id, value)`. -/
def Input.set (_input : Input) (_id : InputId) (value : Option Nat) : Input :=
  { data := value }

/-- The class `qr::Batch`: the members `input` and `parameter` are part of
the object; `_ac`, `_in`, `_par` and `_res` are the pointers kept by the
Algorithm base classes (container, input, parameter, kernel-facing result);
`_result` is the shared pointer to the Result. `_in` and `_par` point into a
Batch object and hold the address of that object. -/
structure Batch (Parameter : Type) where
  input : Input
  parameter : Parameter
  _ac : Option Nat
  _in : Option Nat
  _par : Option Nat
  _res : Option Nat
  _result : Option Nat

/-- The object store of the QR Batch objects: `next` is the first address
not yet given to an object, `batches` holds the Batch objects by address. -/
structure State (Parameter : Type) where
  next : Nat
  batches : Nat → Option (Batch Parameter)

section

variable {Parameter : Type}

/-- Writes a Batch object back at its address. -/
def State.store (st : State Parameter) (this : Nat) (b : Batch Parameter) : State Parameter :=
  { st with batches := fun q => if q = this then some b else st.batches q }

/-- The members of a Batch before the body of a constructor runs: an Input
with no entries, a default Parameter, null pointers. -/
def Batch.members [Inhabited Parameter] : Batch Parameter :=
  { input := { data := none }, parameter := default,
    _ac := none, _in := none, _par := none, _res := none, _result := none }

/-- `Batch::initialize()` for the object at address `this`; `ac` is the
address of the newly created container. -/
def Batch.initialize (this ac : Nat) (b : Batch Parameter) : Batch Parameter :=
  { b with _ac := some ac, _in := some this, _par := some this }

/-- The copy constructor `Batch(const Batch &other)` for the object at
address `this`. -/
def Batch.copy [Inhabited Parameter] (this ac : Nat) (other : Batch Parameter) :
    Batch Parameter :=
  let b0 : Batch Parameter := Batch.members
  let b1 := Batch.initialize this ac b0
  let b2 := { b1 with input := b1.input.set .data (other.input.get .data) }
  { b2 with parameter := other.parameter }

/-- `Batch::clone()`, that is `cloneImpl()`: `new Batch(*this)`. The new
object takes the next free address, its container the one after. -/
def Batch.clone [Inhabited Parameter] (st : State Parameter) (this : Nat) :
    Except Fault (Nat × State Parameter) :=
  match st.batches this with
  | none => .error .nullDereference
  | some other =>
    let c := st.next
    let b := Batch.copy c (st.next + 1) other
    .ok (c, { next := st.next + 2,
              batches := fun q => if q = c then some b else st.batches q })

/-- `Batch::getResult()`. -/
def Batch.getResult (st : State Parameter) (this : Nat) : Except Fault (Option Nat) :=
  match st.batches this with
  | none => .error .nullDereference
  | some b => .ok b._result

/-- `Batch::setResult(res)`. -/
def Batch.setResult (st : State Parameter) (this : Nat) (res : Option Nat) :
    Except Fault (State Parameter) :=
  match st.batches this with
  | none => .error .nullDereference
  | some b => .ok (st.store this { b with _result := res, _res := res })

/-- `Batch::allocateResult()`. The call `_result->allocate<algorithmFPType>(&input, 0, 0)`
runs `qr::Result::allocate` (qr_types.h, not in src) on the Result just
created; it is the parameter `allocate`, which tells whether that call
returns or faults on the given Input. -/
def Batch.allocateResult (allocate : Input → Except Fault Unit) (st : State Parameter)
    (this : Nat) : Except Fault (State Parameter) :=
  match st.batches this with
  | none => .error .nullDereference
  | some b =>
    let r := st.next
    let st1 : State Parameter := { st with next := st.next + 1 }
    let b1 := { b with _result := some r }
    match allocate b1.input with
    | .error f => .error f
    | .ok _ => .ok (st1.store this { b1 with _res := b1._result })

/-- Modelled from the spec: step 2 of the `compute()` protocol ("Allocate:
if Result is not yet allocated, allocate its buffers") belongs to the
Algorithm base class, which is not in src. `allocateResult` is run only when
the kernel-facing result pointer `_res` is null. -/
def Batch.allocateResultMemory (allocate : Input → Except Fault Unit) (st : State Parameter)
    (this : Nat) : Except Fault (State Parameter) :=
  match st.batches this with
  | none => .error .nullDereference
  | some b =>
    if b._res = none then Batch.allocateResult allocate st this else .ok st

/-- The statement `input.set(id, value)` on the Batch at address `this`. -/
def Batch.setInput (st : State Parameter) (this : Nat) (id : InputId) (value : Option Nat) :
    Except Fault (State Parameter) :=
  match st.batches this with
  | none => .error .nullDereference
  | some b => .ok (st.store this { b with input := b.input.set id value })

/-- The expression `input.get(id)` on the Batch at address `this`. -/
def Batch.getInput (st : State Parameter) (this : Nat) (id : InputId) :
    Except Fault (Option Nat) :=
  match st.batches this with
  | none => .error .nullDereference
  | some b => .ok (b.input.get id)

end

end qr

/-! ## Backward smooth relu layer in the batch processing mode -/

namespace smoothrelu

namespace backward

/-- The class `smoothrelu::backward::Batch`: the member `input` is part of
the object (`smoothrelu::backward::Input` adds no entry to
`layers::backward::Input`); `_ac`, `_in` and `_res` are the pointers kept by
the Algorithm base classes; `_result` is the shared pointer to the Result.
The layer has no parameter. -/
structure Batch where
  input : layers.backward.Input
  _ac : Option Nat
  _in : Option Nat
  _res : Option Nat
  _result : Option Nat
  deriving DecidableEq

/-- The object store of the backward smooth relu Batch objects. -/
structure State where
  next : Nat
  batches : Nat → Option Batch

/-- Writes a Batch object back at its address. -/
def State.store (st : State) (this : Nat) (b : Batch) : State :=
  { st with batches := fun q => if q = this then some b else st.batches q }

/-- The members of a Batch before the body of a constructor runs. -/
def Batch.members : Batch :=
  { input := { inputGradient := none, inputFromForward := none },
    _ac := none, _in := none, _res := none, _result := none }

/-- `Batch::initialize()` for the object at address `this`; `ac` is the
address of the newly created container, `r` that of the newly created Result. -/
def Batch.initialize (this ac r : Nat) (b : Batch) : Batch :=
  { b with _ac := some ac, _in := some this, _result := some r }

/-- The copy constructor `Batch(const Batch &other)` for the object at
address `this`. -/
def Batch.copy (this ac r : Nat) (other : Batch) : Batch :=
  let b1 := Batch.initialize this ac r Batch.members
  let b2 := { b1 with input := { b1.input with inputGradient := other.input.inputGradient } }
  { b2 with input := { b2.input with inputFromForward := other.input.inputFromForward } }

/-- `Batch::clone()`, that is `cloneImpl()`: `new Batch(*this)`. The new
object takes the next free address, its container and its Result the two
addresses after it. -/
def Batch.clone (st : State) (this : Nat) : Except Fault (Nat × State) :=
  match st.batches this with
  | none => .error .nullDereference
  | some other =>
    let c := st.next
    let b := Batch.copy c (st.next + 1) (st.next + 2) other
    .ok (c, { next := st.next + 3,
              batches := fun q => if q = c then some b else st.batches q })

/-- `Batch::getLayerResult()`. -/
def Batch.getLayerResult (st : State) (this : Nat) : Except Fault (Option Nat) :=
  match st.batches this with
  | none => .error .nullDereference
  | some b => .ok b._result

/-- `Batch::getResult()`. -/
def Batch.getResult (st : State) (this : Nat) : Except Fault (Option Nat) :=
  match st.batches this with
  | none => .error .nullDereference
  | some b => .ok b._result

/-- `Batch::setResult(result)`. -/
def Batch.setResult (st : State) (this : Nat) (result : Option Nat) : Except Fault State :=
  match st.batches this with
  | none => .error .nullDereference
  | some b => .ok (st.store this { b with _result := result, _res := result })

/-- The statement `input.set(layers::backward::inputGradient, value)` on the
Batch at address `this`. -/
def Batch.setInputGradient (st : State) (this : Nat) (value : Option Tensor) :
    Except Fault State :=
  match st.batches this with
  | none => .error .nullDereference
  | some b => .ok (st.store this { b with input := { b.input with inputGradient := value } })

/-- The statement `input.set(layers::backward::inputFromForward, value)` on
the Batch at address `this`. -/
def Batch.setInputFromForward (st : State) (this : Nat) (value : Option Nat) :
    Except Fault State :=
  match st.batches this with
  | none => .error .nullDereference
  | some b => .ok (st.store this { b with input := { b.input with inputFromForward := value } })

end backward

end smoothrelu

/-- A QR Batch at address 0 with the table 7 as `data`, the Parameter 11 and
the Result 3; the next free address is 5. -/
def qrState : qr.State Nat :=
  { next := 5,
    batches := fun a =>
      if a = 0 then
        some { input := { data := some 7 }, parameter := 11, _ac := some 1, _in := some 0,
               _par := some 0, _res := some 3, _result := some 3 }
      else none }

/-- A backward smooth relu Batch at address 0 with the tensor 7 as
`inputGradient`, the auxiliary map 2 as `inputFromForward` and the Result 3;
the next free address is 5. -/
def smoothreluState : smoothrelu.backward.State :=
  { next := 5,
    batches := fun a =>
      if a = 0 then
        some { input := { inputGradient := some ⟨7, [8, 4]⟩, inputFromForward := some 2 },
               _ac := some 1, _in := some 0, _res := none, _result := some 3 }
      else none }

/-! ## Host-language binding: classifier prediction result -/

namespace classifier.prediction

/-- Modelled from the spec: `classifier::prediction::Result`
(classifier_predict_types.h) is not in src. Its Argument map has the entry
`prediction`, a numeric table held by handle. -/
structure Result where
  prediction : Option Nat
  deriving DecidableEq

/-- The handles the host holds: `results` are the handles that refer to a
prediction Result (the Result is given in place), `tables` the handles that
refer to a numeric table (by the handle of the table, `none` for a null
shared pointer), `next` the first handle not yet given out. -/
structure Handles where
  next : Nat
  results : Int → Option Result
  tables : Int → Option (Option Nat)

/-- Modelled from the spec: the helper
`jniArgument<classifier::prediction::Result>::get<ResultId, NumericTable>`
(common_helpers.h) is not in src. Handles are opaque integer tokens and the
operation is the get of a buffer by identifier: it reads the Result behind
`resAddr` (a fault when the token is not the handle of a Result) and returns
a new handle that refers to the table held under `prediction`. -/
def jniArgumentGet (st : Handles) (resAddr : Int) : Except Fault (Int × Handles) :=
  match st.results resAddr with
  | none => .error .nullDereference
  | some res =>
    .ok ((st.next : Int),
         { st with next := st.next + 1,
                   tables := fun q => if q = (st.next : Int) then some res.prediction
                                      else st.tables q })

/-- The function
`Java_com_intel_daal_algorithms_classifier_prediction_PredictionResult_cGetResultTable`.
`Prediction` is the constant of the generated header JPredictionResultId.h
(not in src) and `get` the helper `jniArgument<...>::get` called with the
identifier `classifier::prediction::prediction`; both are parameters. -/
def cGetResultTable (Prediction : Int)
    (get : Handles → Int → Except Fault (Int × Handles))
    (st : Handles) (resAddr : Int) (id : Int) : Except Fault (Int × Handles) :=
  if id = Prediction then get st resAddr
  else .ok (0, st)

end classifier.prediction

/-! ## Host-language binding: parameter of the one-dimensional pooling layer -/

namespace pooling1d

/-- Modelled from the spec: `pooling1d::Parameter` (pooling1d_layer_types.h)
is not in src. It is a plain struct of configuration values; the binding
uses the first (and only) element `size[0]` of its `kernelSize`, `stride`,
`padding` and `indices` members, each a `size_t`, and the flag
`predictionStage`. -/
structure Parameter where
  kernelSize : Nat
  stride : Nat
  padding : Nat
  indices : Nat
  predictionStage : Bool
  deriving DecidableEq

/-- The conversion of a `jlong` to `size_t` in an assignment: the value
modulo `2^64`. -/
def toSizeT (x : Int) : Nat :=
  (x % 18446744073709551616).toNat

/-- The cast `(jlong)` of a `size_t`: the 64-bit two's complement reading. -/
def toJlong (n : Nat) : Int :=
  if n % 18446744073709551616 < 9223372036854775808 then ((n % 18446744073709551616 : Nat) : Int)
  else ((n % 18446744073709551616 : Nat) : Int) - 18446744073709551616

/-- The Parameter objects by the `jlong` token the host holds for them; the
cast `(pooling1d::Parameter *)cParameter` of a token that is not one of them
is a fault when it is dereferenced. -/
abbrev Parameters := Int → Option Parameter

/-- Writes a Parameter back behind its token. -/
def Parameters.store (st : Parameters) (cParameter : Int) (par : Parameter) : Parameters :=
  fun q => if q = cParameter then some par else st q

/-- `Java_..._pooling1d_Parameter_cSetKernelSize`: `kernelSize.size[0] = first`. -/
def cSetKernelSize (st : Parameters) (cParameter first : Int) : Except Fault Parameters :=
  match st cParameter with
  | none => .error .nullDereference
  | some par => .ok (st.store cParameter { par with kernelSize := toSizeT first })

/-- `Java_..._pooling1d_Parameter_cSetStride`: `stride.size[0] = first`. -/
def cSetStride (st : Parameters) (cParameter first : Int) : Except Fault Parameters :=
  match st cParameter with
  | none => .error .nullDereference
  | some par => .ok (st.store cParameter { par with stride := toSizeT first })

/-- `Java_..._pooling1d_Parameter_cSetSD`: `indices.size[0] = first`. -/
def cSetSD (st : Parameters) (cParameter first : Int) : Except Fault Parameters :=
  match st cParameter with
  | none => .error .nullDereference
  | some par => .ok (st.store cParameter { par with indices := toSizeT first })

/-- `Java_..._pooling1d_Parameter_cSetPadding`: `padding.size[0] = first`. -/
def cSetPadding (st : Parameters) (cParameter first : Int) : Except Fault Parameters :=
  match st cParameter with
  | none => .error .nullDereference
  | some par => .ok (st.store cParameter { par with padding := toSizeT first })

/-- `Java_..._pooling1d_Parameter_cGetKernelSize`: a new `jlong` array of one
element, `(jlong) kernelSize.size[0]`. -/
def cGetKernelSize (st : Parameters) (cParameter : Int) : Except Fault (List Int) :=
  match st cParameter with
  | none => .error .nullDereference
  | some par => .ok [toJlong par.kernelSize]

/-- `Java_..._pooling1d_Parameter_cGetStride`: `(jlong) stride.size[0]`. -/
def cGetStride (st : Parameters) (cParameter : Int) : Except Fault (List Int) :=
  match st cParameter with
  | none => .error .nullDereference
  | some par => .ok [toJlong par.stride]

/-- `Java_..._pooling1d_Parameter_cGetPadding`: `(jlong) padding.size[0]`. -/
def cGetPadding (st : Parameters) (cParameter : Int) : Except Fault (List Int) :=
  match st cParameter with
  | none => .error .nullDereference
  | some par => .ok [toJlong par.padding]

/-- `Java_..._pooling1d_Parameter_cGetSD`: `(jlong) indices.size[0]`. -/
def cGetSD (st : Parameters) (cParameter : Int) : Except Fault (List Int) :=
  match st cParameter with
  | none => .error .nullDereference
  | some par => .ok [toJlong par.indices]

end pooling1d

/-- A handle table in which the token 40 refers to a prediction Result whose
`prediction` entry is the table 7; the next free handle is 50. -/
def hostHandles : classifier.prediction.Handles :=
  { next := 50,
    results := fun q => if q = 40 then some { prediction := some 7 } else none,
    tables := fun _ => none }

/-- The Parameter objects of the host: the token 40 refers to a Parameter
with kernel size 2, stride 3, padding 1 and index 5. -/
def hostParameters : pooling1d.Parameters :=
  fun q => if q = 40 then some { kernelSize := 2, stride := 3, padding := 1, indices := 5,
                                 predictionStage := false }
           else none

/-! ## Theorems -/

/-- An identifier with no entry in the auxiliary map reads as the null handle. -/
theorem LayerData.lookup_eq_none (entries : List (Nat × Option Tensor)) (id : Nat)
    (h : ∀ v, (id, v) ∉ entries) : LayerData.lookup entries id = none := by
  induction entries with
  | nil => rfl
  | cons kv rest ih =>
    obtain ⟨k, v⟩ := kv
    have hk : k ≠ id := by
      intro hk
      exact h v (by simp [hk])
    have hrest : ∀ v', (id, v') ∉ rest := fun v' hmem => h v' (List.mem_cons_of_mem _ hmem)
    simp [LayerData.lookup, hk, ih hrest]

/-- Reading an identifier right after writing it yields the written handle. -/
theorem LayerData.lookup_update_same (entries : List (Nat × Option Tensor)) (id : Nat)
    (value : Option Tensor) :
    LayerData.lookup (LayerData.update entries id value) id = value := by
  induction entries with
  | nil => simp [LayerData.update, LayerData.lookup]
  | cons kv rest ih =>
    obtain ⟨k, v⟩ := kv
    by_cases hk : k = id
    · simp [LayerData.update, LayerData.lookup, hk]
    · simp [LayerData.update, LayerData.lookup, hk, ih]

/-- Writing an identifier leaves the reading of every other identifier as it was. -/
theorem LayerData.lookup_update_other (entries : List (Nat × Option Tensor)) (id other : Nat)
    (value : Option Tensor) (h : other ≠ id) :
    LayerData.lookup (LayerData.update entries id value) other
      = LayerData.lookup entries other := by
  induction entries with
  | nil =>
    have h2 : id ≠ other := fun e => h e.symm
    simp [LayerData.update, LayerData.lookup, h2]
  | cons kv rest ih =>
    obtain ⟨k, v⟩ := kv
    have h2 : id ≠ other := fun e => h e.symm
    by_cases hk : k = id
    · subst hk
      simp [LayerData.update, LayerData.lookup, h2]
    · by_cases hko : k = other
      · subst hko
        simp [LayerData.update, LayerData.lookup, hk]
      · simp [LayerData.update, LayerData.lookup, hk, hko, ih]

/-- A missing tensor is always reported by `checkTensor`. -/
theorem checkTensor_null (argumentName : String) (dims : Option (List Nat)) :
    checkTensor none argumentName dims = some ⟨ErrorID.ErrorNullTensor, some argumentName⟩ := rfl

/-- A present tensor passes `checkTensor` when no dimensions are demanded. -/
theorem checkTensor_present (t : Tensor) (argumentName : String) :
    checkTensor (some t) argumentName none = none := rfl

/-- A present tensor passes `checkTensor` against expected dimensions exactly
when its shape is the expected one. -/
theorem checkTensor_eq_none_iff (t : Tensor) (argumentName : String) (d : List Nat) :
    checkTensor (some t) argumentName (some d) = none ↔ t.dims = d := by
  by_cases hl : t.dims.length = d.length
  · by_cases hd : t.dims = d
    · simp [checkTensor, hd]
    · simp [checkTensor, hl, hd]
  · have hd : t.dims ≠ d := fun e => hl (by rw [e])
    simp [checkTensor, hl, hd]

/-- Reading a collection at an index below its size returns that element. -/
theorem Collection.index_of_lt (xs : List Nat) (i : Nat) (h : i < xs.length) :
    Collection.index xs i = .ok (xs[i]) := by
  simp [Collection.index, h]

/-- Reading a collection at an index that is not below its size is a fault. -/
theorem Collection.index_of_not_lt (xs : List Nat) (i : Nat) (h : ¬ i < xs.length) :
    Collection.index xs i = .error .indexOutOfRange := by
  have hle : xs.length ≤ i := Nat.le_of_not_lt h
  simp [Collection.index, List.getElem?_eq_none hle]

namespace fullyconnected.backward

/-- The fully-connected backward `Input.check` returns an empty collector,
the collector being empty after the base-class check, exactly when
`auxData` is present, the dimension index is below its rank,
`inputGradient` is present with shape `[xDims[dim], nOutputs]` and
`auxWeights` is present with the shape of `auxData` in which the extent at
`dim` is `nOutputs`. -/
theorem Input.check_eq_ok_nil_iff (auxData auxWeights : Nat) (heap : Heap)
    (inp : layers.backward.Input) (param : Parameter) :
    Input.check auxData auxWeights [] heap inp param = .ok [] ↔
      ∃ x g w, ∃ hdim : param.dim < x.dims.length,
        Input.get heap inp auxData = .ok (some x) ∧
        inp.inputGradient = some g ∧
        g.dims = [x.dims[param.dim], param.nOutputs] ∧
        Input.get heap inp auxWeights = .ok (some w) ∧
        w.dims = x.dims.set param.dim param.nOutputs := by
  constructor
  · intro h
    unfold Input.check at h
    simp only [ErrorCollection.size, List.length_nil, gt_iff_lt, Nat.lt_irrefl, if_false] at h
    cases hx : Input.get heap inp auxData with
    | error f => simp [hx] at h
    | ok xT =>
      cases xT with
      | none => simp [hx, checkTensor_null, ErrorCollection.add] at h
      | some x =>
        simp only [hx, checkTensor_present, getDimensions] at h
        cases hgT : inp.inputGradient with
        | none => simp [hgT] at h
        | some g =>
          simp only [hgT] at h
          by_cases hdim : param.dim < x.dims.length
          · have hi := Collection.index_of_lt x.dims param.dim hdim
            simp only [hi, Collection.assign, hdim, if_true] at h
            cases c1 : checkTensor (some g) "inputGradient"
                (some [x.dims[param.dim], param.nOutputs]) with
            | some e => simp [c1, ErrorCollection.add] at h
            | none =>
              have hgd := (checkTensor_eq_none_iff _ _ _).mp c1
              simp only [c1] at h
              cases hwT : Input.get heap inp auxWeights with
              | error f => simp [hwT] at h
              | ok wT =>
                cases wT with
                | none => simp [hwT, checkTensor_null, ErrorCollection.add] at h
                | some w =>
                  simp only [hwT] at h
                  cases c2 : checkTensor (some w) "auxWeights"
                      (some (x.dims.set param.dim param.nOutputs)) with
                  | some e => simp [c2, ErrorCollection.add] at h
                  | none =>
                    exact ⟨x, g, w, hdim, rfl, rfl, hgd, rfl,
                      (checkTensor_eq_none_iff _ _ _).mp c2⟩
          · have hi := Collection.index_of_not_lt x.dims param.dim hdim
            simp [hi] at h
  · rintro ⟨x, g, w, hdim, hx, hg, hgd, hw, hwd⟩
    have hi := Collection.index_of_lt x.dims param.dim hdim
    have c1 := (checkTensor_eq_none_iff g "inputGradient" _).mpr hgd
    have c2 := (checkTensor_eq_none_iff w "auxWeights" _).mpr hwd
    unfold Input.check
    simp only [ErrorCollection.size, List.length_nil, gt_iff_lt, Nat.lt_irrefl, if_false, hx,
      checkTensor_present, getDimensions, hg, hi, Collection.assign, hdim, if_true, c1, hw, c2]

end fullyconnected.backward

namespace fullyconnected.backward

/-- `Input.get` depends on the object store through its auxiliary maps only. -/
theorem Input.get_congr (heap1 heap2 : Heap) (inp : layers.backward.Input) (id : Nat)
    (h : heap1.layerData = heap2.layerData) :
    Input.get heap1 inp id = Input.get heap2 inp id := by
  simp [Input.get, h]

/-- When one identifier can be read, the auxiliary map is present, so every
identifier can be read. -/
theorem Input.get_ok_of_get_ok (heap : Heap) (inp : layers.backward.Input) (id other : Nat)
    (v : Option Tensor) (h : Input.get heap inp id = .ok v) :
    ∃ u, Input.get heap inp other = .ok u := by
  unfold Input.get at h ⊢
  cases hp : inp.inputFromForward with
  | none => simp [hp] at h
  | some p =>
    cases hm : heap.layerData p with
    | none => simp [hp, hm] at h
    | some m => exact ⟨m.get other, by simp [hm]⟩

/-- What `Result.allocate` does when both auxiliary tensors are present: it
returns, leaves the auxiliary maps and the collector as they were, installs
a gradient of the shape of `auxData`, and keeps the weight derivatives and
the bias derivatives that are there or creates them with the shape of
`auxWeights` and the shape `[nOutputs]`. -/
theorem Result.allocate_spec (auxData auxWeights : Nat) (heap : Heap)
    (errors : ErrorCollection) (res : layers.backward.Result)
    (inp : layers.backward.Input) (param : Parameter) (x w : Tensor)
    (hx : Input.get heap inp auxData = .ok (some x))
    (hw : Input.get heap inp auxWeights = .ok (some w)) :
    ∃ out g wd b,
      Result.allocate auxData auxWeights heap errors res inp param = .ok out ∧
      out.heap.layerData = heap.layerData ∧ out.errors = errors ∧
      out.result.gradient = some g ∧ g.dims = x.dims ∧
      out.result.weightDerivatives = some wd ∧
      (res.weightDerivatives = none → wd.dims = w.dims) ∧
      (∀ t, res.weightDerivatives = some t → wd = t) ∧
      out.result.biasDerivatives = some b ∧
      (res.biasDerivatives = none → b.dims = [param.nOutputs]) ∧
      (∀ t, res.biasDerivatives = some t → b = t) := by
  cases hwd : res.weightDerivatives with
  | none =>
    cases hb : res.biasDerivatives with
    | none => simp [Result.allocate, hx, hw, hwd, hb, Heap.newTensor]
    | some t => simp [Result.allocate, hx, hw, hwd, hb, Heap.newTensor]
  | some t =>
    cases hb : res.biasDerivatives with
    | none => simp [Result.allocate, hx, hw, hwd, hb, Heap.newTensor]
    | some t => simp [Result.allocate, hx, hw, hwd, hb, Heap.newTensor]

/-- `Result.check` returns an empty collector, the collector being empty
after the base-class check, when the auxiliary tensors are present and the
three tensors of the Result have the demanded shapes. -/
theorem Result.check_ok_of_shapes (auxData auxWeights : Nat) (heap : Heap)
    (res : layers.backward.Result) (inp : layers.backward.Input) (param : Parameter)
    (x w g wd b : Tensor)
    (hx : Input.get heap inp auxData = .ok (some x))
    (hw : Input.get heap inp auxWeights = .ok (some w))
    (hg : res.gradient = some g) (hwd : res.weightDerivatives = some wd)
    (hb : res.biasDerivatives = some b)
    (hgd : g.dims = x.dims) (hwdd : wd.dims = w.dims) (hbd : b.dims = [param.nOutputs]) :
    Result.check auxData auxWeights [] heap res inp param = .ok [] := by
  have c1 := (checkTensor_eq_none_iff g "gradient" x.dims).mpr hgd
  have c2 := (checkTensor_eq_none_iff wd "weightDerivatives" w.dims).mpr hwdd
  have c3 := (checkTensor_eq_none_iff b "biasDerivatives" [param.nOutputs]).mpr hbd
  unfold Result.check
  simp only [ErrorCollection.size, List.length_nil, gt_iff_lt, Nat.lt_irrefl, if_false, hx, hw,
    hg, hwd, hb, getDimensions, c1, c2, c3]

end fullyconnected.backward

namespace fullyconnected.backward

/-- C1: shape-derivation law. When `auxData` and `auxWeights` are both
present, `Result.allocate` on a Result that holds no entries returns, and
afterwards the gradient has the shape of `auxData` and the weight
derivatives have the shape of `auxWeights`. -/
theorem allocate_shape_derivation (auxData auxWeights : Nat) (heap : Heap)
    (errors : ErrorCollection) (inp : layers.backward.Input) (param : Parameter)
    (x w : Tensor)
    (hx : Input.get heap inp auxData = .ok (some x))
    (hw : Input.get heap inp auxWeights = .ok (some w)) :
    ∃ out g wd,
      Result.allocate auxData auxWeights heap errors emptyResult inp param = .ok out ∧
      out.result.gradient = some g ∧ g.dims = x.dims ∧
      out.result.weightDerivatives = some wd ∧ wd.dims = w.dims := by
  simp [Result.allocate, hx, hw, emptyResult, Heap.newTensor]

/-- Witness of C1 on the scenario objects (`auxData = 0`, `auxWeights = 1`). -/
theorem allocate_shape_derivation_witness :
    ∃ out g wd,
      Result.allocate 0 1 (scenarioHeap [16, 4]) [] emptyResult scenarioInput ⟨0, 4⟩ = .ok out ∧
      out.result.gradient = some g ∧ g.dims = [8, 16] ∧
      out.result.weightDerivatives = some wd ∧ wd.dims = [16, 4] :=
  allocate_shape_derivation 0 1 (scenarioHeap [16, 4]) [] scenarioInput ⟨0, 4⟩
    ⟨1, [8, 16]⟩ ⟨2, [16, 4]⟩ rfl rfl

/-- C2: when `auxData` and `auxWeights` are present and the Result has no
`biasDerivatives`, `Result.allocate` returns and sets `biasDerivatives` to a
rank-1 tensor whose single extent is `nOutputs`; in the scenario of the
specification (`auxData` of shape `[8,16]`, `auxWeights` of shape `[16,4]`,
`nOutputs = 4`, no `weightDerivatives` yet) it yields `weightDerivatives`
of shape `[16,4]` and `biasDerivatives` of shape `[4]`. -/
theorem allocate_biasDerivatives_shape (auxData auxWeights : Nat) (heap : Heap)
    (errors : ErrorCollection) (res : layers.backward.Result)
    (inp : layers.backward.Input) (param : Parameter) (x w : Tensor)
    (hx : Input.get heap inp auxData = .ok (some x))
    (hw : Input.get heap inp auxWeights = .ok (some w))
    (hb : res.biasDerivatives = none) :
    ∃ out b,
      Result.allocate auxData auxWeights heap errors res inp param = .ok out ∧
      out.result.biasDerivatives = some b ∧ b.dims = [param.nOutputs] ∧
      (x.dims = [8, 16] → w.dims = [16, 4] → param.nOutputs = 4 →
        res.weightDerivatives = none →
        ∃ wd, out.result.weightDerivatives = some wd ∧ wd.dims = [16, 4] ∧ b.dims = [4]) := by
  by_cases hwd : res.weightDerivatives = none
  · simp [Result.allocate, hx, hw, hb, hwd, Heap.newTensor]
    intro _ h2 h3
    exact ⟨h2, h3⟩
  · simp [Result.allocate, hx, hw, hb, hwd, Heap.newTensor]

/-- Witness of C2 on the scenario objects. -/
theorem allocate_biasDerivatives_shape_witness :
    ∃ out b,
      Result.allocate 0 1 (scenarioHeap [16, 4]) [] emptyResult scenarioInput ⟨0, 4⟩ = .ok out ∧
      out.result.biasDerivatives = some b ∧ b.dims = [4] ∧
      ∃ wd, out.result.weightDerivatives = some wd ∧ wd.dims = [16, 4] ∧ b.dims = [4] := by
  obtain ⟨out, b, h1, h2, h3, h4⟩ :=
    allocate_biasDerivatives_shape 0 1 (scenarioHeap [16, 4]) [] emptyResult scenarioInput
      ⟨0, 4⟩ ⟨1, [8, 16]⟩ ⟨2, [16, 4]⟩ rfl rfl rfl
  exact ⟨out, b, h1, h2, h3, h4 rfl rfl rfl rfl⟩

/-- C3, as stated, fails: with `auxData` of shape `[8,16]`, `nOutputs = 4`,
`inputGradient` of shape `[8,4]` and `auxWeights` of shape `[16,4]`, there
is no dimension index in `{0, 1}` for which `Input.check` (base check
passing) returns an empty collector. -/
theorem check_rejects_scenario :
    ¬ ∃ dim, (dim = 0 ∨ dim = 1) ∧
      Input.check 0 1 [] (scenarioHeap [16, 4]) scenarioInput ⟨dim, 4⟩ = .ok [] := by
  rintro ⟨dim, hdim | hdim, h⟩ <;> subst hdim <;>
    simp [Input.check, Input.get, scenarioHeap, scenarioInput, LayerData.get, LayerData.lookup,
      checkTensor, getDimensions, Collection.index, Collection.assign, ErrorCollection.size,
      ErrorCollection.add] at h

/-- C3, amended: with `auxData` of shape `[8,16]`, `nOutputs = 4`,
`inputGradient` of shape `[8,4]` and `auxWeights` of shape `[4,16]` (the
shape of `auxData` with its extent 0 replaced by `nOutputs`), `Input.check`
with `dim = 0` (base check passing) returns and records no error. -/
theorem check_accepts_scenario (auxData auxWeights : Nat) (heap : Heap)
    (inp : layers.backward.Input) (x w g : Tensor)
    (hx : Input.get heap inp auxData = .ok (some x))
    (hw : Input.get heap inp auxWeights = .ok (some w))
    (hg : inp.inputGradient = some g)
    (hxd : x.dims = [8, 16]) (hgd : g.dims = [8, 4]) (hwd : w.dims = [4, 16]) :
    Input.check auxData auxWeights [] heap inp ⟨0, 4⟩ = .ok [] := by
  simp [Input.check, hx, hw, hg, hxd, hgd, hwd, checkTensor, getDimensions, Collection.index,
    Collection.assign, ErrorCollection.size]

/-- Witness of the amended C3 on the scenario objects. -/
theorem check_accepts_scenario_witness :
    Input.check 0 1 [] (scenarioHeap [4, 16]) scenarioInput ⟨0, 4⟩ = .ok [] :=
  check_accepts_scenario 0 1 (scenarioHeap [4, 16]) scenarioInput
    ⟨1, [8, 16]⟩ ⟨2, [4, 16]⟩ ⟨3, [8, 4]⟩ rfl rfl rfl rfl rfl rfl

/-- C4: when the auxiliary map yields a null handle for `auxData` or for
`auxWeights`, `Result.allocate` returns, appends exactly the error
`ErrorNullInputNumericTable` to the collector, and leaves the Result (its
`gradient`, `weightDerivatives` and `biasDerivatives` entries) and the
object store as they were. -/
theorem allocate_missing_prerequisite (auxData auxWeights : Nat) (heap : Heap)
    (errors : ErrorCollection) (res : layers.backward.Result)
    (inp : layers.backward.Input) (param : Parameter) (x w : Option Tensor)
    (hx : Input.get heap inp auxData = .ok x)
    (hw : Input.get heap inp auxWeights = .ok w)
    (hnull : x = none ∨ w = none) :
    ∃ out,
      Result.allocate auxData auxWeights heap errors res inp param = .ok out ∧
      out.errors = errors ++ [⟨ErrorID.ErrorNullInputNumericTable, none⟩] ∧
      out.result = res ∧
      out.result.gradient = res.gradient ∧
      out.result.weightDerivatives = res.weightDerivatives ∧
      out.result.biasDerivatives = res.biasDerivatives ∧
      out.heap.next = heap.next := by
  rcases hnull with h | h
  · subst h
    simp [Result.allocate, hx, hw, ErrorCollection.add, Error.ofID]
  · subst h
    cases x <;> simp [Result.allocate, hx, hw, ErrorCollection.add, Error.ofID]

/-- Witness of C4: an auxiliary map that holds `auxData` but no `auxWeights`. -/
theorem allocate_missing_prerequisite_witness :
    ∃ out,
      Result.allocate 0 5 (scenarioHeap [16, 4]) [] emptyResult scenarioInput ⟨0, 4⟩ = .ok out ∧
      out.errors = [] ++ [⟨ErrorID.ErrorNullInputNumericTable, none⟩] ∧
      out.result = emptyResult ∧
      out.result.gradient = emptyResult.gradient ∧
      out.result.weightDerivatives = emptyResult.weightDerivatives ∧
      out.result.biasDerivatives = emptyResult.biasDerivatives ∧
      out.heap.next = (scenarioHeap [16, 4]).next :=
  allocate_missing_prerequisite 0 5 (scenarioHeap [16, 4]) [] emptyResult scenarioInput ⟨0, 4⟩
    (some ⟨1, [8, 16]⟩) none rfl rfl (Or.inr rfl)

/-- C5: when the collector is empty after the base-class check and the
auxiliary map is present but holds no `auxData` entry, `Input.check` returns
(it does not fault, so it reads the dimensions of no absent tensor) with
exactly one error in the collector, the missing-tensor error for `auxData`. -/
theorem check_missing_auxData (auxData auxWeights : Nat) (heap : Heap)
    (inp : layers.backward.Input) (param : Parameter) (p : Nat) (m : LayerData)
    (hp : inp.inputFromForward = some p)
    (hm : heap.layerData p = some m)
    (hno : ∀ v, (auxData, v) ∉ m.entries) :
    Input.check auxData auxWeights [] heap inp param
      = .ok [⟨ErrorID.ErrorNullTensor, some "auxData"⟩] := by
  have hl : LayerData.lookup m.entries auxData = none :=
    LayerData.lookup_eq_none m.entries auxData hno
  simp [Input.check, Input.get, hp, hm, LayerData.get, hl, checkTensor, ErrorCollection.size,
    ErrorCollection.add]

/-- Witness of C5: an auxiliary map that holds identifiers 0 and 1 only,
asked for `auxData = 7`; the Input has no `inputGradient` and the dimension
index is out of range, neither of which is reached. -/
theorem check_missing_auxData_witness :
    Input.check 7 1 [] (scenarioHeap [16, 4]) ⟨none, some 0⟩ ⟨9, 4⟩
      = .ok [⟨ErrorID.ErrorNullTensor, some "auxData"⟩] :=
  check_missing_auxData 7 1 (scenarioHeap [16, 4]) ⟨none, some 0⟩ ⟨9, 4⟩ 0
    ⟨[(0, some ⟨1, [8, 16]⟩), (1, some ⟨2, [16, 4]⟩)]⟩ rfl rfl (by simp)

/-- C6 at its failing input: a Result whose `gradient` entry already holds
the tensor with handle 7 and shape `[3]`. After `Result.allocate` on the
scenario Input the `gradient` entry holds a newly created tensor (handle 10,
shape `[8,16]`): the tensor supplied by the caller has been replaced, while
the guarded entries `weightDerivatives` and `biasDerivatives` of the same
Result are kept. -/
theorem allocate_overwrites_gradient :
    ∃ out,
      Result.allocate 0 1 (scenarioHeap [16, 4]) []
        ⟨some ⟨7, [3]⟩, some ⟨8, [5]⟩, some ⟨9, [6]⟩⟩ scenarioInput ⟨0, 4⟩ = .ok out ∧
      out.result.gradient = some ⟨10, [8, 16]⟩ ∧
      out.result.gradient ≠ some ⟨7, [3]⟩ ∧
      out.result.weightDerivatives = some ⟨8, [5]⟩ ∧
      out.result.biasDerivatives = some ⟨9, [6]⟩ :=
  ⟨_, rfl, rfl, by decide, rfl, rfl⟩

/-- C7: first-error short-circuit. If the collector is non-empty after the
base-class check, `Input.check` and `Result.check` return it unchanged. In
every case each of them either returns the collector unchanged, or returns
it with exactly one error appended, or faults before appending anything: it
never appends more than one error of its own. -/
theorem check_first_error_short_circuit (auxData auxWeights : Nat)
    (errors : ErrorCollection) (heap : Heap) (inp : layers.backward.Input)
    (res : layers.backward.Result) (param : Parameter) :
    (errors ≠ [] →
      Input.check auxData auxWeights errors heap inp param = .ok errors ∧
      Result.check auxData auxWeights errors heap res inp param = .ok errors) ∧
    (Input.check auxData auxWeights errors heap inp param = .ok errors ∨
      (∃ e, Input.check auxData auxWeights errors heap inp param = .ok (errors ++ [e])) ∨
      (∃ f, Input.check auxData auxWeights errors heap inp param = .error f)) ∧
    (Result.check auxData auxWeights errors heap res inp param = .ok errors ∨
      (∃ e, Result.check auxData auxWeights errors heap res inp param = .ok (errors ++ [e])) ∨
      (∃ f, Result.check auxData auxWeights errors heap res inp param = .error f)) := by
  refine ⟨?_, ?_, ?_⟩
  · intro hne
    have hpos : errors.size > 0 := by
      cases errors with
      | nil => exact absurd rfl hne
      | cons e es => simp [ErrorCollection.size]
    simp [Input.check, Result.check, hpos]
  · generalize hr : Input.check auxData auxWeights errors heap inp param = r
    unfold Input.check at hr
    repeat' split at hr
    all_goals try dsimp only at hr
    all_goals repeat' split at hr
    all_goals subst hr
    all_goals simp [ErrorCollection.add]
  · generalize hr : Result.check auxData auxWeights errors heap res inp param = r
    unfold Result.check at hr
    repeat' split at hr
    all_goals try dsimp only at hr
    all_goals repeat' split at hr
    all_goals subst hr
    all_goals simp [ErrorCollection.add]

/-- Witness of C7: a collector that holds one error after the base-class
check is returned unchanged by both checks, whatever the Input holds. -/
theorem check_first_error_short_circuit_witness :
    Input.check 0 1 [⟨ErrorID.ErrorIncorrectParameter, none⟩] (scenarioHeap [16, 4])
        ⟨none, none⟩ ⟨9, 4⟩ = .ok [⟨ErrorID.ErrorIncorrectParameter, none⟩] ∧
    Result.check 0 1 [⟨ErrorID.ErrorIncorrectParameter, none⟩] (scenarioHeap [16, 4])
        emptyResult ⟨none, none⟩ ⟨9, 4⟩ = .ok [⟨ErrorID.ErrorIncorrectParameter, none⟩] :=
  (check_first_error_short_circuit 0 1 [⟨ErrorID.ErrorIncorrectParameter, none⟩]
    (scenarioHeap [16, 4]) ⟨none, none⟩ emptyResult ⟨9, 4⟩).1 (by simp)

end fullyconnected.backward

/-- C8 at its failing input: the collector holds one error after the
base-class check, the Input has no `data` tensor and the Result no `value`
tensor. The dropout and the softmax forward `Result.check` both append a
second error instead of returning. -/
theorem forward_check_appends_after_base_error :
    dropout.forward.Result.check [⟨ErrorID.ErrorIncorrectParameter, none⟩] ⟨none, none⟩ ⟨none⟩
      = [⟨ErrorID.ErrorIncorrectParameter, none⟩, ⟨ErrorID.ErrorNullTensor, some "data"⟩] ∧
    softmax.forward.Result.check [⟨ErrorID.ErrorIncorrectParameter, none⟩] ⟨none, none⟩ ⟨none⟩
      = [⟨ErrorID.ErrorIncorrectParameter, none⟩, ⟨ErrorID.ErrorNullTensor, some "data"⟩] :=
  ⟨rfl, rfl⟩

namespace dropout.forward

/-- C9: for an Input whose `data` tensor is present, the dropout forward
`Result.allocate` returns; afterwards the `value` tensor has the shape of
`data`, the `resultForBackward` entry refers to an auxiliary map that holds
exactly one entry, `auxRetainMask`, and that mask has the shape of `data`. -/
theorem allocate_backward_data (auxRetainMask : Nat) (heap : Heap)
    (res : layers.forward.Result) (inp : layers.forward.Input) (d : Tensor)
    (hd : inp.data = some d) :
    ∃ heap1 res1 v p mask,
      Result.allocate auxRetainMask heap res inp = .ok (heap1, res1) ∧
      res1.value = some v ∧ v.dims = d.dims ∧
      res1.resultForBackward = some p ∧
      heap1.layerData p = some ⟨[(auxRetainMask, some mask)]⟩ ∧
      mask.dims = d.dims := by
  simp [Result.allocate, Result.allocateLayerData, Result.set, hd, getDimensions,
    Heap.newTensor, Heap.newLayerData, Heap.storeLayerData, LayerData.set, LayerData.update,
    and_assoc]

/-- Witness of C9: a `data` tensor of shape `[8, 16]`, a Result with no entries. -/
theorem allocate_backward_data_witness :
    ∃ heap1 res1 v p mask,
      Result.allocate 2 (scenarioHeap [16, 4]) ⟨none, none⟩ ⟨some ⟨1, [8, 16]⟩⟩
        = .ok (heap1, res1) ∧
      res1.value = some v ∧ v.dims = [8, 16] ∧
      res1.resultForBackward = some p ∧
      heap1.layerData p = some ⟨[(2, some mask)]⟩ ∧
      mask.dims = [8, 16] :=
  allocate_backward_data 2 (scenarioHeap [16, 4]) ⟨none, none⟩ ⟨some ⟨1, [8, 16]⟩⟩
    ⟨1, [8, 16]⟩ rfl

end dropout.forward

namespace softmax.forward

/-- C10: for an Input whose `data` tensor is present, the softmax forward
`Result.allocate` returns; afterwards the `value` tensor has the shape of
`data` and `get(auxValue)` returns the very tensor held under `value` (the
same handle, not a second buffer). -/
theorem allocate_auxValue_is_value (auxValue : Nat) (heap : Heap)
    (res : layers.forward.Result) (inp : layers.forward.Input) (d : Tensor)
    (hd : inp.data = some d) :
    ∃ heap1 res1 v,
      Result.allocate auxValue heap res inp = .ok (heap1, res1) ∧
      res1.value = some v ∧ v.dims = d.dims ∧
      Result.get heap1 res1 auxValue = .ok (some v) ∧
      Result.get heap1 res1 auxValue = .ok res1.value := by
  simp [Result.allocate, Result.allocateLayerData, Result.set, Result.get, hd, getDimensions,
    Heap.newTensor, Heap.newLayerData, Heap.storeLayerData, LayerData.set, LayerData.update,
    LayerData.get, LayerData.lookup, and_assoc]

/-- Witness of C10: a `data` tensor of shape `[8, 16]`, a Result with no entries. -/
theorem allocate_auxValue_is_value_witness :
    ∃ heap1 res1 v,
      Result.allocate 2 (scenarioHeap [16, 4]) ⟨none, none⟩ ⟨some ⟨1, [8, 16]⟩⟩
        = .ok (heap1, res1) ∧
      res1.value = some v ∧ v.dims = [8, 16] ∧
      Result.get heap1 res1 2 = .ok (some v) ∧
      Result.get heap1 res1 2 = .ok res1.value :=
  allocate_auxValue_is_value 2 (scenarioHeap [16, 4]) ⟨none, none⟩ ⟨some ⟨1, [8, 16]⟩⟩
    ⟨1, [8, 16]⟩ rfl

end softmax.forward

/-- C11: the auxiliary channel is shared by reference. When the
`resultForBackward` entry of a forward Result and the `inputFromForward`
entry of a fully-connected backward Input refer to the same auxiliary map,
a `set(id, v)` on the forward Result (dropout or softmax) makes `get(id)` on
the backward Input return `v`, and a `set(id, v)` on the backward Input
makes `get(id)` on the forward Result return `v`. -/
theorem auxiliary_channel_shared (heap : Heap) (res : layers.forward.Result)
    (inp : layers.backward.Input) (p : Nat) (m : LayerData) (id : Nat) (v : Option Tensor)
    (hres : res.resultForBackward = some p)
    (hinp : inp.inputFromForward = some p)
    (hm : heap.layerData p = some m) :
    (∃ heap1, dropout.forward.Result.set heap res id v = .ok heap1 ∧
      fullyconnected.backward.Input.get heap1 inp id = .ok v) ∧
    (∃ heap1, softmax.forward.Result.set heap res id v = .ok heap1 ∧
      fullyconnected.backward.Input.get heap1 inp id = .ok v) ∧
    (∃ heap1, fullyconnected.backward.Input.set heap inp id v = .ok heap1 ∧
      dropout.forward.Result.get heap1 res id = .ok v ∧
      softmax.forward.Result.get heap1 res id = .ok v) := by
  simp [dropout.forward.Result.set, softmax.forward.Result.set,
    fullyconnected.backward.Input.set, dropout.forward.Result.get,
    softmax.forward.Result.get, fullyconnected.backward.Input.get, hres, hinp, hm,
    Heap.storeLayerData, LayerData.get, LayerData.set, LayerData.lookup_update_same]

/-- Witness of C11: the forward Result and the scenario Input both refer to
the auxiliary map under handle 0. -/
theorem auxiliary_channel_shared_witness :
    (∃ heap1, dropout.forward.Result.set (scenarioHeap [16, 4]) ⟨none, some 0⟩ 1
        (some ⟨9, [4, 16]⟩) = .ok heap1 ∧
      fullyconnected.backward.Input.get heap1 scenarioInput 1 = .ok (some ⟨9, [4, 16]⟩)) ∧
    (∃ heap1, softmax.forward.Result.set (scenarioHeap [16, 4]) ⟨none, some 0⟩ 1
        (some ⟨9, [4, 16]⟩) = .ok heap1 ∧
      fullyconnected.backward.Input.get heap1 scenarioInput 1 = .ok (some ⟨9, [4, 16]⟩)) ∧
    (∃ heap1, fullyconnected.backward.Input.set (scenarioHeap [16, 4]) scenarioInput 1
        (some ⟨9, [4, 16]⟩) = .ok heap1 ∧
      dropout.forward.Result.get heap1 ⟨none, some 0⟩ 1 = .ok (some ⟨9, [4, 16]⟩) ∧
      softmax.forward.Result.get heap1 ⟨none, some 0⟩ 1 = .ok (some ⟨9, [4, 16]⟩)) :=
  auxiliary_channel_shared (scenarioHeap [16, 4]) ⟨none, some 0⟩ scenarioInput 0
    ⟨[(0, some ⟨1, [8, 16]⟩), (1, some ⟨2, [16, 4]⟩)]⟩ 1 (some ⟨9, [4, 16]⟩) rfl rfl rfl

namespace qr

end qr

namespace smoothrelu.backward

/-- C13: `clone()` of a backward smooth relu Batch returns the address of a
new Batch whose Input holds the `inputGradient` handle and the
`inputFromForward` handle of the source, and whose Result is newly created:
its handle was not in use before the call, so that it differs from the
Result of the source (whose handle, if any, is in use). -/
theorem clone_same_forward_pass (st : State) (this : Nat) (b : Batch)
    (hb : st.batches this = some b)
    (hres : ∀ r, b._result = some r → r < st.next) :
    ∃ c st1 cb r1,
      Batch.clone st this = .ok (c, st1) ∧
      st1.batches c = some cb ∧
      cb.input.inputGradient = b.input.inputGradient ∧
      cb.input.inputFromForward = b.input.inputFromForward ∧
      cb._result = some r1 ∧ st.next ≤ r1 ∧ r1 < st1.next ∧
      cb._result ≠ b._result := by
  refine ⟨st.next,
    { next := st.next + 3,
      batches := fun q =>
        if q = st.next then some (Batch.copy st.next (st.next + 1) (st.next + 2) b)
        else st.batches q },
    Batch.copy st.next (st.next + 1) (st.next + 2) b, st.next + 2,
    ?_, ?_, rfl, rfl, rfl, ?_, ?_, ?_⟩
  · simp [Batch.clone, hb]
  · simp
  · omega
  · simp
  · intro h
    have h1 : b._result = some (st.next + 2) := by
      rw [← h]
      rfl
    have := hres _ h1
    omega

/-- Witness of C13 on the Batch at address 0 of `smoothreluState`. -/
theorem clone_same_forward_pass_witness :
    ∃ c st1 cb r1,
      Batch.clone smoothreluState 0 = .ok (c, st1) ∧
      st1.batches c = some cb ∧
      cb.input.inputGradient = some ⟨7, [8, 4]⟩ ∧
      cb.input.inputFromForward = some 2 ∧
      cb._result = some r1 ∧ 5 ≤ r1 ∧ r1 < st1.next ∧
      cb._result ≠ some 3 :=
  clone_same_forward_pass smoothreluState 0
    { input := { inputGradient := some ⟨7, [8, 4]⟩, inputFromForward := some 2 },
      _ac := some 1, _in := some 0, _res := none, _result := some 3 } rfl
    (by intro r h; cases h; decide)

end smoothrelu.backward

/-- C14: clone independence. For a QR Batch at an address in use, after
`c = b.clone()` and `c.input.set(data, t)` the Batch `b` is as it was: its
`data` entry is the table it held and `getResult()` returns the Result it
held. Likewise for a backward smooth relu Batch after the `inputGradient`
and then the `inputFromForward` entry of the clone are replaced. -/
theorem clone_independence {Parameter : Type} [Inhabited Parameter]
    (stq : qr.State Parameter) (thisq : Nat) (bq : qr.Batch Parameter)
    (sts : smoothrelu.backward.State) (thiss : Nat) (bs : smoothrelu.backward.Batch)
    (t : Option Nat) (g : Option Tensor) (f : Option Nat)
    (hbq : stq.batches thisq = some bq) (hltq : thisq < stq.next)
    (hbs : sts.batches thiss = some bs) (hlts : thiss < sts.next) :
    (∃ c st1 st2,
      qr.Batch.clone stq thisq = .ok (c, st1) ∧
      qr.Batch.setInput st1 c .data t = .ok st2 ∧
      qr.Batch.getInput st2 c .data = .ok t ∧
      st2.batches thisq = some bq ∧
      qr.Batch.getInput st2 thisq .data = .ok bq.input.data ∧
      qr.Batch.getResult st2 thisq = .ok bq._result) ∧
    (∃ c st1 st2 st3,
      smoothrelu.backward.Batch.clone sts thiss = .ok (c, st1) ∧
      smoothrelu.backward.Batch.setInputGradient st1 c g = .ok st2 ∧
      smoothrelu.backward.Batch.setInputFromForward st2 c f = .ok st3 ∧
      st2.batches thiss = some bs ∧
      st3.batches thiss = some bs ∧
      smoothrelu.backward.Batch.getResult st3 thiss = .ok bs._result) := by
  have hq : thisq ≠ stq.next := Nat.ne_of_lt hltq
  have hs : thiss ≠ sts.next := Nat.ne_of_lt hlts
  constructor
  · simp [qr.Batch.clone, qr.Batch.setInput, qr.Batch.getInput, qr.Batch.getResult,
      qr.State.store, qr.Input.get, qr.Input.set, hbq, hq, and_assoc]
  · simp [smoothrelu.backward.Batch.clone, smoothrelu.backward.Batch.setInputGradient,
      smoothrelu.backward.Batch.setInputFromForward, smoothrelu.backward.Batch.getResult,
      smoothrelu.backward.State.store, hbs, hs, and_assoc]

/-- Witness of C14 on the Batch objects at address 0 of `qrState` and of
`smoothreluState`. -/
theorem clone_independence_witness :
    (∃ c st1 st2,
      qr.Batch.clone qrState 0 = .ok (c, st1) ∧
      qr.Batch.setInput st1 c .data (some 8) = .ok st2 ∧
      qr.Batch.getInput st2 c .data = .ok (some 8) ∧
      st2.batches 0 = qrState.batches 0 ∧
      qr.Batch.getInput st2 0 .data = .ok (some 7) ∧
      qr.Batch.getResult st2 0 = .ok (some 3)) ∧
    (∃ c st1 st2 st3,
      smoothrelu.backward.Batch.clone smoothreluState 0 = .ok (c, st1) ∧
      smoothrelu.backward.Batch.setInputGradient st1 c (some ⟨9, [2, 2]⟩) = .ok st2 ∧
      smoothrelu.backward.Batch.setInputFromForward st2 c none = .ok st3 ∧
      st2.batches 0 = smoothreluState.batches 0 ∧
      st3.batches 0 = smoothreluState.batches 0 ∧
      smoothrelu.backward.Batch.getResult st3 0 = .ok (some 3)) :=
  clone_independence qrState 0
    { input := { data := some 7 }, parameter := 11, _ac := some 1, _in := some 0,
      _par := some 0, _res := some 3, _result := some 3 }
    smoothreluState 0
    { input := { inputGradient := some ⟨7, [8, 4]⟩, inputFromForward := some 2 },
      _ac := some 1, _in := some 0, _res := none, _result := some 3 }
    (some 8) (some ⟨9, [2, 2]⟩) none rfl (by decide) rfl (by decide)

namespace qr

/-- C15, as stated, fails: on the Batch of `qrState`, after
`setResult(r)` with the Result 3, `allocateResult()` returns and
`getResult()` is then the newly created Result 5, not the Result 3 supplied
by the caller. -/
theorem allocateResult_replaces_result :
    ∃ st1 st2,
      Batch.setResult qrState 0 (some 3) = .ok st1 ∧
      Batch.allocateResult (fun _ => .ok ()) st1 0 = .ok st2 ∧
      Batch.getResult st2 0 = .ok (some 5) ∧
      Batch.getResult st2 0 ≠ .ok (some 3) := by
  refine ⟨_, _, rfl, rfl, rfl, ?_⟩
  intro h
  simp [Batch.getResult, State.store, qrState] at h

/-- C15, amended: after `setResult(r)` with a non-null Result `r`,
`getResult()` returns `r`, and the allocation step of the `compute()`
protocol, which runs `allocateResult` only when no Result is allocated yet,
returns and leaves the state as it is, so `getResult()` still returns `r`.
`allocateResult` itself, when it is run and the allocation of the Result
returns, installs a newly created Result: `getResult()` and the
kernel-facing pointer then hold its handle, which was not in use before. -/
theorem allocation_step_keeps_registered_result {Parameter : Type}
    (allocate : Input → Except Fault Unit) (st : State Parameter) (this : Nat)
    (b : Batch Parameter) (r : Nat)
    (hb : st.batches this = some b) :
    ∃ st1,
      Batch.setResult st this (some r) = .ok st1 ∧
      Batch.getResult st1 this = .ok (some r) ∧
      Batch.allocateResultMemory allocate st1 this = .ok st1 ∧
      (allocate b.input = .ok () →
        ∃ st2 b2,
          Batch.allocateResult allocate st1 this = .ok st2 ∧
          Batch.getResult st2 this = .ok (some st.next) ∧
          st2.batches this = some b2 ∧ b2._res = some st.next ∧
          st.next < st2.next) := by
  refine ⟨st.store this { b with _result := some r, _res := some r }, ?_, ?_, ?_, ?_⟩
  · simp [Batch.setResult, hb]
  · simp [Batch.getResult, State.store]
  · simp [Batch.allocateResultMemory, State.store]
  · intro hal
    simp [Batch.allocateResult, Batch.getResult, State.store, hal]

/-- Witness of the amended C15 on the Batch at address 0 of `qrState`. -/
theorem allocation_step_keeps_registered_result_witness :
    ∃ st1,
      Batch.setResult qrState 0 (some 4) = .ok st1 ∧
      Batch.getResult st1 0 = .ok (some 4) ∧
      Batch.allocateResultMemory (fun _ => .ok ()) st1 0 = .ok st1 ∧
      ∃ st2 b2,
        Batch.allocateResult (fun _ => .ok ()) st1 0 = .ok st2 ∧
        Batch.getResult st2 0 = .ok (some 5) ∧
        st2.batches 0 = some b2 ∧ b2._res = some 5 ∧
        5 < st2.next := by
  obtain ⟨st1, h1, h2, h3, h4⟩ :=
    allocation_step_keeps_registered_result (fun _ => .ok ()) qrState 0
      { input := { data := some 7 }, parameter := 11, _ac := some 1, _in := some 0,
        _par := some 0, _res := some 3, _result := some 3 } 4 rfl
  exact ⟨st1, h1, h2, h3, h4 rfl⟩

end qr

/-- C16: registering a user-allocated Result round-trips. For a QR Batch
and a backward smooth relu Batch, after `setResult(r)` the call
`getResult()` returns `r` and the kernel-facing pointer `_res` refers to the
same object; for the smooth relu Batch `getLayerResult()` returns `r` too. -/
theorem setResult_getResult_roundtrip {Parameter : Type}
    (stq : qr.State Parameter) (thisq : Nat) (bq : qr.Batch Parameter)
    (sts : smoothrelu.backward.State) (thiss : Nat) (bs : smoothrelu.backward.Batch)
    (r : Option Nat)
    (hbq : stq.batches thisq = some bq)
    (hbs : sts.batches thiss = some bs) :
    (∃ st1 b1,
      qr.Batch.setResult stq thisq r = .ok st1 ∧
      qr.Batch.getResult st1 thisq = .ok r ∧
      st1.batches thisq = some b1 ∧ b1._res = r) ∧
    (∃ st1 b1,
      smoothrelu.backward.Batch.setResult sts thiss r = .ok st1 ∧
      smoothrelu.backward.Batch.getResult st1 thiss = .ok r ∧
      smoothrelu.backward.Batch.getLayerResult st1 thiss = .ok r ∧
      st1.batches thiss = some b1 ∧ b1._res = r) := by
  constructor
  · simp [qr.Batch.setResult, qr.Batch.getResult, qr.State.store, hbq]
  · simp [smoothrelu.backward.Batch.setResult, smoothrelu.backward.Batch.getResult,
      smoothrelu.backward.Batch.getLayerResult, smoothrelu.backward.State.store, hbs]

/-- Witness of C16 on the Batch objects at address 0 of `qrState` and of
`smoothreluState`, with the Result 4. -/
theorem setResult_getResult_roundtrip_witness :
    (∃ st1 b1,
      qr.Batch.setResult qrState 0 (some 4) = .ok st1 ∧
      qr.Batch.getResult st1 0 = .ok (some 4) ∧
      st1.batches 0 = some b1 ∧ b1._res = some 4) ∧
    (∃ st1 b1,
      smoothrelu.backward.Batch.setResult smoothreluState 0 (some 4) = .ok st1 ∧
      smoothrelu.backward.Batch.getResult st1 0 = .ok (some 4) ∧
      smoothrelu.backward.Batch.getLayerResult st1 0 = .ok (some 4) ∧
      st1.batches 0 = some b1 ∧ b1._res = some 4) :=
  setResult_getResult_roundtrip qrState 0
    { input := { data := some 7 }, parameter := 11, _ac := some 1, _in := some 0,
      _par := some 0, _res := some 3, _result := some 3 }
    smoothreluState 0
    { input := { inputGradient := some ⟨7, [8, 4]⟩, inputFromForward := some 2 },
      _ac := some 1, _in := some 0, _res := none, _result := some 3 }
    (some 4) rfl rfl

namespace softmax.forward

/-- C17: for an Input whose `data` tensor is present, the softmax forward
`Input.check` returns; it appends `ErrorIncorrectParameter` to the collector
the base-class check left if and only if `Parameter.dimension` is at least
the number of dimensions of `data`, and it appends nothing otherwise. -/
theorem check_validates_dimension (errors : ErrorCollection)
    (inp : layers.forward.Input) (parameter : Parameter) (d : Tensor)
    (hd : inp.data = some d) :
    (Input.check errors inp parameter
        = .ok (errors ++ [⟨ErrorID.ErrorIncorrectParameter, none⟩]) ↔
      parameter.dimension ≥ d.dims.length) ∧
    (¬ parameter.dimension ≥ d.dims.length → Input.check errors inp parameter = .ok errors) := by
  by_cases h : parameter.dimension ≥ d.dims.length
  · simp [Input.check, hd, getDimensions, h, ErrorCollection.add, Error.ofID]
  · simp [Input.check, hd, getDimensions, h, ErrorCollection.add, Error.ofID]

/-- Witness of C17: a `data` tensor of shape `[8, 16]`, an empty collector;
the dimension index 2 is reported, the dimension index 1 is not. -/
theorem check_validates_dimension_witness :
    ((Input.check [] ⟨some ⟨1, [8, 16]⟩⟩ ⟨2⟩
        = .ok ([] ++ [⟨ErrorID.ErrorIncorrectParameter, none⟩]) ↔ (2 : Nat) ≥ 2) ∧
      (¬ (2 : Nat) ≥ 2 → Input.check [] ⟨some ⟨1, [8, 16]⟩⟩ ⟨2⟩ = .ok [])) ∧
    Input.check [] ⟨some ⟨1, [8, 16]⟩⟩ ⟨1⟩ = .ok [] :=
  ⟨check_validates_dimension [] ⟨some ⟨1, [8, 16]⟩⟩ ⟨2⟩ ⟨1, [8, 16]⟩ rfl,
   (check_validates_dimension [] ⟨some ⟨1, [8, 16]⟩⟩ ⟨1⟩ ⟨1, [8, 16]⟩ rfl).2 (by decide)⟩

/-- C18 at its failing input: an Input whose `data` tensor is null. Whatever
the base-class check left in the collector and whatever the Parameter, the
softmax forward `Input.check` reads the dimensions of the null tensor: it
faults instead of returning with an error. -/
theorem check_dereferences_missing_data (errors : ErrorCollection) (parameter : Parameter) :
    Input.check errors ⟨none⟩ parameter = .error .nullDereference := by
  simp [Input.check, getDimensions]

end softmax.forward

namespace fullyconnected.backward

/-- C19 at its failing inputs, the collector being empty after the
base-class check. With an auxiliary map that holds no `auxData` (identifier
7 in the scenario map), `Result.check` reads the dimensions of the null
tensor and faults. With `auxData` present, a `gradient` of its shape and no
`auxWeights` (identifier 7), it faults on the dimensions of `auxWeights`. -/
theorem result_check_faults_on_missing_aux :
    Result.check 7 1 [] (scenarioHeap [16, 4]) emptyResult scenarioInput ⟨0, 4⟩
      = .error .nullDereference ∧
    Result.check 0 7 [] (scenarioHeap [16, 4]) ⟨some ⟨4, [8, 16]⟩, none, none⟩
        scenarioInput ⟨0, 4⟩
      = .error .nullDereference :=
  ⟨rfl, rfl⟩

end fullyconnected.backward

namespace fullyconnected.backward

/-- C21: `Result.check` enforces the shape-consistency invariant exactly.
When `auxData` and `auxWeights` are present, the collector is empty after
the base-class check and the Result holds `gradient`, `weightDerivatives`
and `biasDerivatives`, `Result.check` returns, and it returns an empty
collector if and only if the gradient has the shape of `auxData`, the
weight derivatives have the shape of `auxWeights` and the bias derivatives
have the shape `[nOutputs]`. -/
theorem result_check_iff_shapes (auxData auxWeights : Nat) (heap : Heap)
    (res : layers.backward.Result) (inp : layers.backward.Input) (param : Parameter)
    (x w g wd b : Tensor)
    (hx : Input.get heap inp auxData = .ok (some x))
    (hw : Input.get heap inp auxWeights = .ok (some w))
    (hg : res.gradient = some g)
    (hwd : res.weightDerivatives = some wd)
    (hb : res.biasDerivatives = some b) :
    (∃ c, Result.check auxData auxWeights [] heap res inp param = .ok c) ∧
    (Result.check auxData auxWeights [] heap res inp param = .ok [] ↔
      g.dims = x.dims ∧ wd.dims = w.dims ∧ b.dims = [param.nOutputs]) := by
  have h1 := checkTensor_eq_none_iff g "gradient" x.dims
  have h2 := checkTensor_eq_none_iff wd "weightDerivatives" w.dims
  have h3 := checkTensor_eq_none_iff b "biasDerivatives" [param.nOutputs]
  simp only [Result.check, ErrorCollection.size, hx, hw, hg, hwd, hb, getDimensions,
    ErrorCollection.add]
  cases c1 : checkTensor (some g) "gradient" (some x.dims) with
  | some e =>
    have n1 : ¬ g.dims = x.dims := fun e1 => by simp [h1.mpr e1] at c1
    simp [n1]
  | none =>
    have e1 := h1.mp c1
    cases c2 : checkTensor (some wd) "weightDerivatives" (some w.dims) with
    | some e =>
      have n2 : ¬ wd.dims = w.dims := fun e2 => by simp [h2.mpr e2] at c2
      simp [n2]
    | none =>
      have e2 := h2.mp c2
      cases c3 : checkTensor (some b) "biasDerivatives" (some [param.nOutputs]) with
      | some e =>
        have n3 : ¬ b.dims = [param.nOutputs] := fun e3 => by simp [h3.mpr e3] at c3
        simp [n3]
      | none =>
        have e3 := h3.mp c3
        simp [e1, e2, e3]

/-- Witness of C21 on the scenario objects, with a Result whose three
tensors have the demanded shapes. -/
theorem result_check_iff_shapes_witness :
    (∃ c, Result.check 0 1 [] (scenarioHeap [16, 4])
        ⟨some ⟨4, [8, 16]⟩, some ⟨5, [16, 4]⟩, some ⟨6, [4]⟩⟩ scenarioInput ⟨0, 4⟩ = .ok c) ∧
    (Result.check 0 1 [] (scenarioHeap [16, 4])
        ⟨some ⟨4, [8, 16]⟩, some ⟨5, [16, 4]⟩, some ⟨6, [4]⟩⟩ scenarioInput ⟨0, 4⟩ = .ok [] ↔
      [8, 16] = [8, 16] ∧ [16, 4] = [16, 4] ∧ [4] = [4]) :=
  result_check_iff_shapes 0 1 (scenarioHeap [16, 4])
    ⟨some ⟨4, [8, 16]⟩, some ⟨5, [16, 4]⟩, some ⟨6, [4]⟩⟩ scenarioInput ⟨0, 4⟩
    ⟨1, [8, 16]⟩ ⟨2, [16, 4]⟩ ⟨4, [8, 16]⟩ ⟨5, [16, 4]⟩ ⟨6, [4]⟩ rfl rfl rfl rfl rfl

/-- C22: `Input.check` derives its expected shapes from `auxData` and the
Parameter. When the collector is empty after the base-class check,
`auxData` is present with shape `xDims` and `dim` is below its rank,
`Input.check` returns an empty collector if and only if `inputGradient` has
the shape `[xDims[dim], nOutputs]` and `auxWeights` is present with the
shape `xDims` in which the extent at `dim` is replaced by `nOutputs`;
whenever `inputGradient` is present at all, the check returns. -/
theorem input_check_iff_shapes (auxData auxWeights : Nat) (heap : Heap)
    (inp : layers.backward.Input) (param : Parameter) (x : Tensor)
    (hx : Input.get heap inp auxData = .ok (some x))
    (hdim : param.dim < x.dims.length) :
    (Input.check auxData auxWeights [] heap inp param = .ok [] ↔
      (∃ g, inp.inputGradient = some g ∧ g.dims = [x.dims[param.dim], param.nOutputs]) ∧
      (∃ w, Input.get heap inp auxWeights = .ok (some w) ∧
        w.dims = x.dims.set param.dim param.nOutputs)) ∧
    (∀ g, inp.inputGradient = some g →
      ∃ c, Input.check auxData auxWeights [] heap inp param = .ok c) := by
  constructor
  · rw [Input.check_eq_ok_nil_iff]
    constructor
    · rintro ⟨x1, g, w, hdim1, hx1, hg, hgd, hw, hwd⟩
      rw [hx] at hx1
      cases hx1
      exact ⟨⟨g, hg, hgd⟩, ⟨w, hw, hwd⟩⟩
    · rintro ⟨⟨g, hg, hgd⟩, ⟨w, hw, hwd⟩⟩
      exact ⟨x, g, w, hdim, hx, hg, hgd, hw, hwd⟩
  · intro g hg
    obtain ⟨u, hu⟩ := Input.get_ok_of_get_ok heap inp auxData auxWeights _ hx
    have hi := Collection.index_of_lt x.dims param.dim hdim
    unfold Input.check
    simp only [ErrorCollection.size, List.length_nil, gt_iff_lt, Nat.lt_irrefl, if_false, hx,
      checkTensor_present, getDimensions, hg, hi, Collection.assign, hdim, if_true, hu]
    cases checkTensor (some g) "inputGradient" (some [x.dims[param.dim], param.nOutputs]) with
    | some e => exact ⟨_, rfl⟩
    | none =>
      cases checkTensor u "auxWeights" (some (x.dims.set param.dim param.nOutputs)) with
      | some e => exact ⟨_, rfl⟩
      | none => exact ⟨_, rfl⟩

/-- Witness of C22 on the scenario objects with `auxWeights` of shape
`[4, 16]` and `dim = 0`. -/
theorem input_check_iff_shapes_witness :
    (Input.check 0 1 [] (scenarioHeap [4, 16]) scenarioInput ⟨0, 4⟩ = .ok [] ↔
      (∃ g, scenarioInput.inputGradient = some g ∧ g.dims = [8, 4]) ∧
      (∃ w, Input.get (scenarioHeap [4, 16]) scenarioInput 1 = .ok (some w) ∧
        w.dims = [4, 16])) ∧
    (∀ g, scenarioInput.inputGradient = some g →
      ∃ c, Input.check 0 1 [] (scenarioHeap [4, 16]) scenarioInput ⟨0, 4⟩ = .ok c) :=
  input_check_iff_shapes 0 1 (scenarioHeap [4, 16]) scenarioInput ⟨0, 4⟩ ⟨1, [8, 16]⟩ rfl
    (by decide)

/-- C23: allocation establishes what validation demands. When `auxData` and
`auxWeights` are present, `Result.allocate` on a Result with no entries
returns without adding an error, and `Result.check` on the allocated Result
(the collector being empty after the base-class check) returns an empty
collector. -/
theorem allocate_then_check (auxData auxWeights : Nat) (heap : Heap)
    (inp : layers.backward.Input) (param : Parameter) (x w : Tensor)
    (hx : Input.get heap inp auxData = .ok (some x))
    (hw : Input.get heap inp auxWeights = .ok (some w)) :
    ∃ out,
      Result.allocate auxData auxWeights heap [] emptyResult inp param = .ok out ∧
      out.errors = [] ∧
      Result.check auxData auxWeights out.errors out.heap out.result inp param = .ok [] := by
  obtain ⟨out, g, wd, b, hal, hheap, herr, hg, hgd, hwd, hwdn, _, hb, hbn, _⟩ :=
    Result.allocate_spec auxData auxWeights heap [] emptyResult inp param x w hx hw
  refine ⟨out, hal, herr, ?_⟩
  rw [herr]
  have hx1 : Input.get out.heap inp auxData = .ok (some x) := by
    rw [Input.get_congr out.heap heap inp auxData hheap]
    exact hx
  have hw1 : Input.get out.heap inp auxWeights = .ok (some w) := by
    rw [Input.get_congr out.heap heap inp auxWeights hheap]
    exact hw
  exact Result.check_ok_of_shapes auxData auxWeights out.heap out.result inp param x w g wd b
    hx1 hw1 hg hwd hb hgd (hwdn rfl) (hbn rfl)

/-- Witness of C23 on the scenario objects. -/
theorem allocate_then_check_witness :
    ∃ out,
      Result.allocate 0 1 (scenarioHeap [16, 4]) [] emptyResult scenarioInput ⟨0, 4⟩ = .ok out ∧
      out.errors = [] ∧
      Result.check 0 1 out.errors out.heap out.result scenarioInput ⟨0, 4⟩ = .ok [] :=
  allocate_then_check 0 1 (scenarioHeap [16, 4]) scenarioInput ⟨0, 4⟩
    ⟨1, [8, 16]⟩ ⟨2, [16, 4]⟩ rfl rfl

/-- C24: validated inputs fix the derivative shapes. When `Input.check`
returns an empty collector (the collector being empty after the base-class
check), `Result.allocate` on a Result with no entries returns; the weight
derivatives have the shape of `auxData` with the extent at `dim` replaced by
`nOutputs`, and the bias derivatives are a rank-1 tensor whose length is the
second extent of `inputGradient`. -/
theorem validated_inputs_fix_shapes (auxData auxWeights : Nat) (heap : Heap)
    (errors : ErrorCollection) (inp : layers.backward.Input) (param : Parameter)
    (hcheck : Input.check auxData auxWeights [] heap inp param = .ok []) :
    ∃ x g out wd b n,
      Input.get heap inp auxData = .ok (some x) ∧
      inp.inputGradient = some g ∧
      Result.allocate auxData auxWeights heap errors emptyResult inp param = .ok out ∧
      out.result.weightDerivatives = some wd ∧
      wd.dims = x.dims.set param.dim param.nOutputs ∧
      out.result.biasDerivatives = some b ∧
      g.dims[1]? = some n ∧ b.dims = [n] := by
  obtain ⟨x, g, w, hdim, hx, hg, hgd, hw, hwd⟩ :=
    (Input.check_eq_ok_nil_iff auxData auxWeights heap inp param).mp hcheck
  obtain ⟨out, g1, wd, b, hal, _, _, _, _, hwd1, hwdn, _, hb, hbn, _⟩ :=
    Result.allocate_spec auxData auxWeights heap errors emptyResult inp param x w hx hw
  refine ⟨x, g, out, wd, b, param.nOutputs, hx, hg, hal, hwd1, ?_, hb, ?_, hbn rfl⟩
  · rw [hwdn rfl, hwd]
  · rw [hgd]
    rfl

/-- Witness of C24 on the scenario objects with `auxWeights` of shape
`[4, 16]` and `dim = 0`. -/
theorem validated_inputs_fix_shapes_witness :
    ∃ x g out wd b n,
      Input.get (scenarioHeap [4, 16]) scenarioInput 0 = .ok (some x) ∧
      scenarioInput.inputGradient = some g ∧
      Result.allocate 0 1 (scenarioHeap [4, 16]) [] emptyResult scenarioInput ⟨0, 4⟩
        = .ok out ∧
      out.result.weightDerivatives = some wd ∧
      wd.dims = x.dims.set 0 4 ∧
      out.result.biasDerivatives = some b ∧
      g.dims[1]? = some n ∧ b.dims = [n] :=
  validated_inputs_fix_shapes 0 1 (scenarioHeap [4, 16]) [] scenarioInput ⟨0, 4⟩ rfl

/-- C25 at its failing input: `auxData` of shape `[8, 16]` (rank 2),
`inputGradient` present, and the dimension index `dim = 2`. The collector is
empty after the base-class check; `Input.check` reads `xDims[2]` without
having recorded an error and faults on the index. -/
theorem input_check_index_out_of_range :
    Input.check 0 1 [] (scenarioHeap [16, 4]) scenarioInput ⟨2, 4⟩
      = .error .indexOutOfRange :=
  rfl

/-- C26: `Result.allocate` is idempotent on shapes. When `auxData` and
`auxWeights` are present, two consecutive calls return; the shapes of
`gradient`, `weightDerivatives` and `biasDerivatives` after the second call
are those after the first, and the `weightDerivatives` and `biasDerivatives`
tensors after the second call are the ones held after the first. -/
theorem allocate_twice_same_shapes (auxData auxWeights : Nat) (heap : Heap)
    (errors : ErrorCollection) (res : layers.backward.Result)
    (inp : layers.backward.Input) (param : Parameter) (x w : Tensor)
    (hx : Input.get heap inp auxData = .ok (some x))
    (hw : Input.get heap inp auxWeights = .ok (some w)) :
    ∃ out1 out2,
      Result.allocate auxData auxWeights heap errors res inp param = .ok out1 ∧
      Result.allocate auxData auxWeights out1.heap out1.errors out1.result inp param
        = .ok out2 ∧
      out2.result.gradient.map Tensor.dims = out1.result.gradient.map Tensor.dims ∧
      out2.result.weightDerivatives.map Tensor.dims
        = out1.result.weightDerivatives.map Tensor.dims ∧
      out2.result.biasDerivatives.map Tensor.dims
        = out1.result.biasDerivatives.map Tensor.dims ∧
      out2.result.weightDerivatives = out1.result.weightDerivatives ∧
      out2.result.biasDerivatives = out1.result.biasDerivatives := by
  obtain ⟨out1, g1, wd1, b1, hal1, hheap, _, hg1, hgd1, hwd1, _, _, hb1, _, _⟩ :=
    Result.allocate_spec auxData auxWeights heap errors res inp param x w hx hw
  have hx1 : Input.get out1.heap inp auxData = .ok (some x) := by
    rw [Input.get_congr out1.heap heap inp auxData hheap]
    exact hx
  have hw1 : Input.get out1.heap inp auxWeights = .ok (some w) := by
    rw [Input.get_congr out1.heap heap inp auxWeights hheap]
    exact hw
  obtain ⟨out2, g2, wd2, b2, hal2, _, _, hg2, hgd2, hwd2, _, hwdk, hb2, _, hbk⟩ :=
    Result.allocate_spec auxData auxWeights out1.heap out1.errors out1.result inp param x w
      hx1 hw1
  have ewd : wd2 = wd1 := hwdk wd1 hwd1
  have eb : b2 = b1 := hbk b1 hb1
  refine ⟨out1, out2, hal1, hal2, ?_, ?_, ?_, ?_, ?_⟩
  · simp [hg1, hg2, hgd1, hgd2]
  · simp [hwd1, hwd2, ewd]
  · simp [hb1, hb2, eb]
  · simp [hwd1, hwd2, ewd]
  · simp [hb1, hb2, eb]

/-- Witness of C26 on the scenario objects, starting from a Result that
already holds bias derivatives. -/
theorem allocate_twice_same_shapes_witness :
    ∃ out1 out2,
      Result.allocate 0 1 (scenarioHeap [16, 4]) [] ⟨none, none, some ⟨9, [4]⟩⟩ scenarioInput
        ⟨0, 4⟩ = .ok out1 ∧
      Result.allocate 0 1 out1.heap out1.errors out1.result scenarioInput ⟨0, 4⟩ = .ok out2 ∧
      out2.result.gradient.map Tensor.dims = out1.result.gradient.map Tensor.dims ∧
      out2.result.weightDerivatives.map Tensor.dims
        = out1.result.weightDerivatives.map Tensor.dims ∧
      out2.result.biasDerivatives.map Tensor.dims
        = out1.result.biasDerivatives.map Tensor.dims ∧
      out2.result.weightDerivatives = out1.result.weightDerivatives ∧
      out2.result.biasDerivatives = out1.result.biasDerivatives :=
  allocate_twice_same_shapes 0 1 (scenarioHeap [16, 4]) [] ⟨none, none, some ⟨9, [4]⟩⟩
    scenarioInput ⟨0, 4⟩ ⟨1, [8, 16]⟩ ⟨2, [16, 4]⟩ rfl rfl

end fullyconnected.backward

/-- C27: `getValueSize` agrees with allocation for the shape-preserving
forward layers. For dropout and softmax, `getValueSize` returns `inputSize`
unchanged, and for an Input whose `data` tensor has the shape `inputSize`
the forward `Result.allocate` returns and gives the `value` tensor that
shape. -/
theorem getValueSize_agrees_with_allocate (auxRetainMask auxValue : Nat) (heap : Heap)
    (res : layers.forward.Result) (inp : layers.forward.Input) (d : Tensor)
    (inputSize : List Nat)
    (hd : inp.data = some d) (hs : d.dims = inputSize) :
    dropout.forward.Result.getValueSize inputSize = inputSize ∧
    softmax.forward.Result.getValueSize inputSize = inputSize ∧
    (∃ heap1 res1 v,
      dropout.forward.Result.allocate auxRetainMask heap res inp = .ok (heap1, res1) ∧
      res1.value = some v ∧ v.dims = dropout.forward.Result.getValueSize inputSize) ∧
    (∃ heap1 res1 v,
      softmax.forward.Result.allocate auxValue heap res inp = .ok (heap1, res1) ∧
      res1.value = some v ∧ v.dims = softmax.forward.Result.getValueSize inputSize) := by
  refine ⟨rfl, rfl, ?_, ?_⟩
  · simp [dropout.forward.Result.allocate, dropout.forward.Result.allocateLayerData,
      dropout.forward.Result.set, dropout.forward.Result.getValueSize, hd, hs, getDimensions,
      Heap.newTensor, Heap.newLayerData, and_assoc]
  · simp [softmax.forward.Result.allocate, softmax.forward.Result.allocateLayerData,
      softmax.forward.Result.set, softmax.forward.Result.getValueSize, hd, hs, getDimensions,
      Heap.newTensor, Heap.newLayerData, and_assoc]

/-- Witness of C27: a `data` tensor of shape `[8, 16]`. -/
theorem getValueSize_agrees_with_allocate_witness :
    dropout.forward.Result.getValueSize [8, 16] = [8, 16] ∧
    softmax.forward.Result.getValueSize [8, 16] = [8, 16] ∧
    (∃ heap1 res1 v,
      dropout.forward.Result.allocate 2 (scenarioHeap [16, 4]) ⟨none, none⟩
        ⟨some ⟨1, [8, 16]⟩⟩ = .ok (heap1, res1) ∧
      res1.value = some v ∧ v.dims = dropout.forward.Result.getValueSize [8, 16]) ∧
    (∃ heap1 res1 v,
      softmax.forward.Result.allocate 2 (scenarioHeap [16, 4]) ⟨none, none⟩
        ⟨some ⟨1, [8, 16]⟩⟩ = .ok (heap1, res1) ∧
      res1.value = some v ∧ v.dims = softmax.forward.Result.getValueSize [8, 16]) :=
  getValueSize_agrees_with_allocate 2 2 (scenarioHeap [16, 4]) ⟨none, none⟩
    ⟨some ⟨1, [8, 16]⟩⟩ ⟨1, [8, 16]⟩ [8, 16] rfl rfl

/-- C28: set/get round trip on the auxiliary map, with frame. For a dropout
or softmax forward Result whose auxiliary map is present, `set(id, v)`
returns; afterwards `get(id)` returns `v` and `get` of every other
identifier returns what it returned before. The call writes the auxiliary
map behind `resultForBackward` only: the other auxiliary maps and the
allocation state of the object store are as before, and the Result object
itself (its `value` entry) is not written. -/
theorem forward_set_get_roundtrip (heap : Heap) (res : layers.forward.Result)
    (p : Nat) (m : LayerData) (id : Nat) (v : Option Tensor)
    (hres : res.resultForBackward = some p)
    (hm : heap.layerData p = some m) :
    (∃ heap1, dropout.forward.Result.set heap res id v = .ok heap1 ∧
      dropout.forward.Result.get heap1 res id = .ok v ∧
      (∀ other, other ≠ id →
        dropout.forward.Result.get heap1 res other = dropout.forward.Result.get heap res other) ∧
      heap1.next = heap.next ∧ (∀ q, q ≠ p → heap1.layerData q = heap.layerData q)) ∧
    (∃ heap1, softmax.forward.Result.set heap res id v = .ok heap1 ∧
      softmax.forward.Result.get heap1 res id = .ok v ∧
      (∀ other, other ≠ id →
        softmax.forward.Result.get heap1 res other = softmax.forward.Result.get heap res other) ∧
      heap1.next = heap.next ∧ (∀ q, q ≠ p → heap1.layerData q = heap.layerData q)) := by
  constructor
  · refine ⟨heap.storeLayerData p (m.set id v), ?_, ?_, ?_, rfl, ?_⟩
    · simp [dropout.forward.Result.set, hres, hm]
    · simp [dropout.forward.Result.get, hres, Heap.storeLayerData, LayerData.get, LayerData.set,
        LayerData.lookup_update_same]
    · intro other hne
      simp [dropout.forward.Result.get, hres, hm, Heap.storeLayerData, LayerData.get,
        LayerData.set, LayerData.lookup_update_other _ _ _ _ hne]
    · intro q hq
      simp [Heap.storeLayerData, hq]
  · refine ⟨heap.storeLayerData p (m.set id v), ?_, ?_, ?_, rfl, ?_⟩
    · simp [softmax.forward.Result.set, hres, hm]
    · simp [softmax.forward.Result.get, hres, Heap.storeLayerData, LayerData.get, LayerData.set,
        LayerData.lookup_update_same]
    · intro other hne
      simp [softmax.forward.Result.get, hres, hm, Heap.storeLayerData, LayerData.get,
        LayerData.set, LayerData.lookup_update_other _ _ _ _ hne]
    · intro q hq
      simp [Heap.storeLayerData, hq]

/-- Witness of C28: a forward Result bound to the auxiliary map under
handle 0, written at identifier 1. -/
theorem forward_set_get_roundtrip_witness :
    (∃ heap1, dropout.forward.Result.set (scenarioHeap [16, 4]) ⟨none, some 0⟩ 1
        (some ⟨9, [4, 16]⟩) = .ok heap1 ∧
      dropout.forward.Result.get heap1 ⟨none, some 0⟩ 1 = .ok (some ⟨9, [4, 16]⟩) ∧
      (∀ other, other ≠ 1 →
        dropout.forward.Result.get heap1 ⟨none, some 0⟩ other
          = dropout.forward.Result.get (scenarioHeap [16, 4]) ⟨none, some 0⟩ other) ∧
      heap1.next = (scenarioHeap [16, 4]).next ∧
      (∀ q, q ≠ 0 → heap1.layerData q = (scenarioHeap [16, 4]).layerData q)) ∧
    (∃ heap1, softmax.forward.Result.set (scenarioHeap [16, 4]) ⟨none, some 0⟩ 1
        (some ⟨9, [4, 16]⟩) = .ok heap1 ∧
      softmax.forward.Result.get heap1 ⟨none, some 0⟩ 1 = .ok (some ⟨9, [4, 16]⟩) ∧
      (∀ other, other ≠ 1 →
        softmax.forward.Result.get heap1 ⟨none, some 0⟩ other
          = softmax.forward.Result.get (scenarioHeap [16, 4]) ⟨none, some 0⟩ other) ∧
      heap1.next = (scenarioHeap [16, 4]).next ∧
      (∀ q, q ≠ 0 → heap1.layerData q = (scenarioHeap [16, 4]).layerData q)) :=
  forward_set_get_roundtrip (scenarioHeap [16, 4]) ⟨none, some 0⟩ 0
    ⟨[(0, some ⟨1, [8, 16]⟩), (1, some ⟨2, [16, 4]⟩)]⟩ 1 (some ⟨9, [4, 16]⟩) rfl rfl

namespace classifier.prediction

/-- C29: the host-binding getter answers only the `Prediction` identifier.
When `id` equals `Prediction`, `cGetResultTable` returns what the helper
`jniArgument<...>::get` returns for the `prediction` entry of the Result
behind `resAddr`: with the helper as modelled, a handle that refers to the
prediction table of that Result. For every other `id` it returns 0 and
leaves the handles as they are, whatever `resAddr` is and whatever the
helper does: the Result is not read. -/
theorem cGetResultTable_prediction_only (Prediction : Int)
    (get : Handles → Int → Except Fault (Int × Handles))
    (st : Handles) (resAddr id : Int) :
    (id = Prediction → cGetResultTable Prediction get st resAddr id = get st resAddr) ∧
    (id = Prediction → ∀ res, st.results resAddr = some res →
      ∃ h st1, cGetResultTable Prediction jniArgumentGet st resAddr id = .ok (h, st1) ∧
        st1.tables h = some res.prediction ∧ st1.results = st.results) ∧
    (id ≠ Prediction → cGetResultTable Prediction get st resAddr id = .ok (0, st)) := by
  refine ⟨?_, ?_, ?_⟩
  · intro h
    simp [cGetResultTable, h]
  · intro h res hres
    simp [cGetResultTable, h, jniArgumentGet, hres, and_assoc]
  · intro h
    simp [cGetResultTable, h]

/-- Witness of C29 on `hostHandles` with `Prediction = 0`: the identifier 0
yields the new handle 50, which refers to the table 7; the identifier 1
yields 0, also for the token 41, which is not the handle of a Result. -/
theorem cGetResultTable_prediction_only_witness :
    (∃ h st1, cGetResultTable 0 jniArgumentGet hostHandles 40 0 = .ok (h, st1) ∧
      st1.tables h = some (some 7) ∧ st1.results = hostHandles.results) ∧
    cGetResultTable 0 jniArgumentGet hostHandles 41 1 = .ok (0, hostHandles) :=
  ⟨(cGetResultTable_prediction_only 0 jniArgumentGet hostHandles 40 0).2.1 rfl
      { prediction := some 7 } rfl,
   (cGetResultTable_prediction_only 0 jniArgumentGet hostHandles 41 1).2.2 (by decide)⟩

end classifier.prediction

namespace pooling1d

/-- A 64-bit signed value survives the conversion to `size_t` and back. -/
theorem toJlong_toSizeT (x : Int) (hlo : -9223372036854775808 ≤ x)
    (hhi : x < 9223372036854775808) : toJlong (toSizeT x) = x := by
  unfold toJlong toSizeT
  have hnn : 0 ≤ x % 18446744073709551616 := Int.emod_nonneg x (by decide)
  have hlt : x % 18446744073709551616 < 18446744073709551616 := Int.emod_lt_of_pos x (by decide)
  have hcast : (((x % 18446744073709551616).toNat : Nat) : Int) = x % 18446744073709551616 :=
    Int.toNat_of_nonneg hnn
  have hmod : (x % 18446744073709551616).toNat % 18446744073709551616
      = (x % 18446744073709551616).toNat := by
    apply Nat.mod_eq_of_lt
    omega
  rw [hmod]
  split
  · rename_i h
    omega
  · rename_i h
    omega

/-- C30: the Parameter fields round-trip across the host boundary. For the
Parameter behind the token `p` and a 64-bit signed value `x`,
`cSetKernelSize(p, x)` stores `x` modulo `2^64` in the size field and
`cGetKernelSize(p)` then returns the one-element array `[x]`; the same holds
for stride, padding and the index field (`cSetSD`, `cGetSD`). Each setter
leaves the other three fields and `predictionStage` as they were. -/
theorem parameter_fields_roundtrip (st : Parameters) (p : Int) (par : Parameter) (x : Int)
    (hp : st p = some par)
    (hlo : -9223372036854775808 ≤ x) (hhi : x < 9223372036854775808) :
    (∃ st1 par1, cSetKernelSize st p x = .ok st1 ∧ cGetKernelSize st1 p = .ok [x] ∧
      st1 p = some par1 ∧ par1.kernelSize = (x % 18446744073709551616).toNat ∧
      par1.stride = par.stride ∧ par1.padding = par.padding ∧
      par1.indices = par.indices ∧ par1.predictionStage = par.predictionStage) ∧
    (∃ st1 par1, cSetStride st p x = .ok st1 ∧ cGetStride st1 p = .ok [x] ∧
      st1 p = some par1 ∧ par1.stride = (x % 18446744073709551616).toNat ∧
      par1.kernelSize = par.kernelSize ∧ par1.padding = par.padding ∧
      par1.indices = par.indices ∧ par1.predictionStage = par.predictionStage) ∧
    (∃ st1 par1, cSetPadding st p x = .ok st1 ∧ cGetPadding st1 p = .ok [x] ∧
      st1 p = some par1 ∧ par1.padding = (x % 18446744073709551616).toNat ∧
      par1.kernelSize = par.kernelSize ∧ par1.stride = par.stride ∧
      par1.indices = par.indices ∧ par1.predictionStage = par.predictionStage) ∧
    (∃ st1 par1, cSetSD st p x = .ok st1 ∧ cGetSD st1 p = .ok [x] ∧
      st1 p = some par1 ∧ par1.indices = (x % 18446744073709551616).toNat ∧
      par1.kernelSize = par.kernelSize ∧ par1.stride = par.stride ∧
      par1.padding = par.padding ∧ par1.predictionStage = par.predictionStage) := by
  have hrt := toJlong_toSizeT x hlo hhi
  refine ⟨?_, ?_, ?_, ?_⟩
  · refine ⟨st.store p { par with kernelSize := toSizeT x },
      { par with kernelSize := toSizeT x }, ?_, ?_, ?_, rfl, rfl, rfl, rfl, rfl⟩
    · simp [cSetKernelSize, hp]
    · simp [cGetKernelSize, Parameters.store, hrt]
    · simp [Parameters.store]
  · refine ⟨st.store p { par with stride := toSizeT x },
      { par with stride := toSizeT x }, ?_, ?_, ?_, rfl, rfl, rfl, rfl, rfl⟩
    · simp [cSetStride, hp]
    · simp [cGetStride, Parameters.store, hrt]
    · simp [Parameters.store]
  · refine ⟨st.store p { par with padding := toSizeT x },
      { par with padding := toSizeT x }, ?_, ?_, ?_, rfl, rfl, rfl, rfl, rfl⟩
    · simp [cSetPadding, hp]
    · simp [cGetPadding, Parameters.store, hrt]
    · simp [Parameters.store]
  · refine ⟨st.store p { par with indices := toSizeT x },
      { par with indices := toSizeT x }, ?_, ?_, ?_, rfl, rfl, rfl, rfl, rfl⟩
    · simp [cSetSD, hp]
    · simp [cGetSD, Parameters.store, hrt]
    · simp [Parameters.store]

/-- Witness of C30 on `hostParameters` with the negative value `-3`. -/
theorem parameter_fields_roundtrip_witness :
    (∃ st1 par1, cSetKernelSize hostParameters 40 (-3) = .ok st1 ∧
      cGetKernelSize st1 40 = .ok [-3] ∧
      st1 40 = some par1 ∧ par1.kernelSize = ((-3 : Int) % 18446744073709551616).toNat ∧
      par1.stride = 3 ∧ par1.padding = 1 ∧
      par1.indices = 5 ∧ par1.predictionStage = false) ∧
    (∃ st1 par1, cSetStride hostParameters 40 (-3) = .ok st1 ∧
      cGetStride st1 40 = .ok [-3] ∧
      st1 40 = some par1 ∧ par1.stride = ((-3 : Int) % 18446744073709551616).toNat ∧
      par1.kernelSize = 2 ∧ par1.padding = 1 ∧
      par1.indices = 5 ∧ par1.predictionStage = false) ∧
    (∃ st1 par1, cSetPadding hostParameters 40 (-3) = .ok st1 ∧
      cGetPadding st1 40 = .ok [-3] ∧
      st1 40 = some par1 ∧ par1.padding = ((-3 : Int) % 18446744073709551616).toNat ∧
      par1.kernelSize = 2 ∧ par1.stride = 3 ∧
      par1.indices = 5 ∧ par1.predictionStage = false) ∧
    (∃ st1 par1, cSetSD hostParameters 40 (-3) = .ok st1 ∧
      cGetSD st1 40 = .ok [-3] ∧
      st1 40 = some par1 ∧ par1.indices = ((-3 : Int) % 18446744073709551616).toNat ∧
      par1.kernelSize = 2 ∧ par1.stride = 3 ∧
      par1.padding = 1 ∧ par1.predictionStage = false) :=
  parameter_fields_roundtrip hostParameters 40
    { kernelSize := 2, stride := 3, padding := 1, indices := 5, predictionStage := false }
    (-3) rfl (by decide) (by decide)

end pooling1d

end Daal
